import Mathlib

/-!
Verification development for the questrade-bot signal-to-order decision
engine (src/app.py).  The Python module is shallowly embedded: Python
floats are modelled as exact rationals (ℚ), Python `round(x, n)` as
rounding to the nearest multiple of `10⁻ⁿ`, the Google-Sheets tabs as
in-memory lists of typed rows (an empty spreadsheet cell is `Option.none`),
and the Flask handler `tv` as a pure state-transition function from a
`World` (cooldown timestamps, Positions tab, PnL tab, raw log tab) and an
inbound request to a response paired with the successor `World`.
Wall-clock time (`time.time()`, `now_iso()`), the generated request id and
the broker outcome are passed as explicit parameters.
-/

set_option allowUnsafeReducibility true
attribute [semireducible] Rat.add Rat.mul Rat.inv Rat.div Rat.sub Rat.neg Rat.ofScientific

namespace QuestradeBot

/-- Model of Python `str.upper()` (character-wise upper-casing). -/
def upperStr (s : String) : String := ⟨s.data.map Char.toUpper⟩

/-- Model of Python `str.lower()` (character-wise lower-casing). -/
def lowerStr (s : String) : String := ⟨s.data.map Char.toLower⟩

/-- Model of Python `str.strip()`: drop whitespace from both ends. -/
def trimStr (s : String) : String :=
  ⟨((s.data.dropWhile Char.isWhitespace).reverse.dropWhile Char.isWhitespace).reverse⟩

/-- Python `round(x, 2)` on the ℚ model: round to the nearest cent. -/
def round2 (q : ℚ) : ℚ := ((round (q * 100) : ℤ) : ℚ) / 100

/-- Python `round(x, 4)`: round to the nearest multiple of 1/10000. -/
def round4 (q : ℚ) : ℚ := ((round (q * 10000) : ℤ) : ℚ) / 10000

/-- The process-wide configuration read from the environment at startup
(`DRY_RUN`, `USE_RISK_SIZING`, `POSITION_DOLLARS`, `RISK_PER_TRADE`,
`MAX_POSITION_USD`, `GLOBAL_COOLDOWN_SEC`, `SYMBOL_COOLDOWN_SEC`,
`SHEETS_ON`). -/
structure Config where
  dryRun : Bool
  useRiskSizing : Bool
  positionDollars : ℚ
  riskPerTrade : ℚ
  maxPositionUsd : ℚ
  globalCooldownSec : ℤ
  symbolCooldownSec : ℤ
  sheetsOn : Bool
deriving DecidableEq

/-- `calc_stop_price` (app.py line 191). -/
def calc_stop_price (price risk_stop_pct : ℚ) : ℚ :=
  round4 (price * (1 - risk_stop_pct / 100))

/-- The `note` string returned by `calc_shares`, abstracted to its
distinguishable cases (the numeric suffix of the clamp message is not
modelled). -/
inductive SizingNote
  | invalidPrice
  | invalidStopDist
  | riskSizing (clamped : Bool)
  | fixedNotional (clamped : Bool)
deriving DecidableEq

/-- The tuple `(shares, position_value, risk_usd, note)` returned by
`calc_shares`. -/
structure SizeResult where
  shares : ℤ
  position_value : ℚ
  risk_usd : ℚ
  note : SizingNote
deriving DecidableEq

/-- `calc_shares` (app.py lines 194-232).  Mirrors the source exactly:
risk sizing with a non-positive stop distance returns zero shares with
note `invalid_stop_dist` (there is no fallback in the code); the
`MAX_POSITION_USD` clamp recomputes shares, position value and (in risk
mode only) the risk amount; position value and risk are rounded to two
decimals on return. -/
def calc_shares (cfg : Config) (price risk_stop_pct : ℚ) : SizeResult :=
  if price ≤ 0 then ⟨0, 0, 0, .invalidPrice⟩
  else if cfg.useRiskSizing then
    let stop_dist := price * (risk_stop_pct / 100)
    if stop_dist ≤ 0 then ⟨0, 0, 0, .invalidStopDist⟩
    else
      let shares := max 1 ⌊cfg.riskPerTrade / stop_dist⌋
      let position_value := (shares : ℚ) * price
      let risk_usd := (shares : ℚ) * stop_dist
      if cfg.maxPositionUsd > 0 ∧ position_value > cfg.maxPositionUsd then
        let clamp_shares := max 1 ⌊cfg.maxPositionUsd / price⌋
        ⟨clamp_shares, round2 ((clamp_shares : ℚ) * price),
          round2 ((clamp_shares : ℚ) * stop_dist), .riskSizing true⟩
      else ⟨shares, round2 position_value, round2 risk_usd, .riskSizing false⟩
  else
    let shares := max 1 ⌊cfg.positionDollars / price⌋
    let position_value := (shares : ℚ) * price
    if cfg.maxPositionUsd > 0 ∧ position_value > cfg.maxPositionUsd then
      let clamp_shares := max 1 ⌊cfg.maxPositionUsd / price⌋
      ⟨clamp_shares, round2 ((clamp_shares : ℚ) * price),
        round2 cfg.riskPerTrade, .fixedNotional true⟩
    else ⟨shares, round2 position_value, round2 cfg.riskPerTrade, .fixedNotional false⟩

/-- Rendering of `SizingNote` to the source strings (the clamp suffix
omits the formatted dollar amount). -/
def noteStr : SizingNote → String
  | .invalidPrice => "invalid_price"
  | .invalidStopDist => "invalid_stop_dist"
  | .riskSizing false => "Risk-sizing enabled (RISK_PER_TRADE / stop distance)."
  | .riskSizing true =>
      "Risk-sizing enabled (RISK_PER_TRADE / stop distance). Clamped by MAX_POSITION_USD."
  | .fixedNotional false => "Fixed notional sizing (POSITION_DOLLARS / price)."
  | .fixedNotional true =>
      "Fixed notional sizing (POSITION_DOLLARS / price). Clamped by MAX_POSITION_USD."

/-- The in-memory cooldown state `_last_global_ts` / `_last_symbol_ts`
(app.py lines 238-239).  An absent symbol entry reads as `0.0`. -/
structure CooldownState where
  lastGlobalTs : ℚ
  lastSymbolTs : List (String × ℚ)
deriving DecidableEq

/-- `_last_symbol_ts.get(symbol, 0.0)`. -/
def symbolTs (st : CooldownState) (symbol : String) : ℚ :=
  match st.lastSymbolTs.find? (fun p => p.1 == symbol) with
  | some p => p.2
  | none => 0

/-- `cooldown_block` (app.py lines 241-252): the global window is checked
first, then the per-symbol window; returns the blocking reason, if any. -/
def cooldown_block (cfg : Config) (st : CooldownState) (symbol : String) (now : ℚ) :
    Option String :=
  if cfg.globalCooldownSec > 0 ∧ now - st.lastGlobalTs < (cfg.globalCooldownSec : ℚ) then
    some ("Global cooldown active (" ++ toString cfg.globalCooldownSec ++ "s).")
  else if cfg.symbolCooldownSec > 0 ∧
      now - symbolTs st symbol < (cfg.symbolCooldownSec : ℚ) then
    some ("Symbol cooldown active for " ++ symbol ++ " (" ++
      toString cfg.symbolCooldownSec ++ "s).")
  else none

/-- `cooldown_mark` (app.py lines 254-258): unconditionally sets both the
global and the per-symbol timestamp to `now`. -/
def cooldown_mark (st : CooldownState) (symbol : String) (now : ℚ) : CooldownState :=
  ⟨now, (symbol, now) :: st.lastSymbolTs⟩

/-- One row of the Positions tab (header at app.py lines 365-372).
`none` models an empty spreadsheet cell. -/
structure PositionRow where
  symbol : String
  state : String
  entry_time : String
  entry_price : Option ℚ
  shares : Option ℤ
  position_value : Option ℚ
  stop_price : Option ℚ
  risk_usd : Option ℚ
  last_event : String
  last_update : String
  trade_id : String
  notes : String
deriving DecidableEq

/-- The row-lookup condition of `pos_get` (app.py line 432-433):
the cell is stripped and upper-cased before comparison with the
upper-cased query symbol. -/
def rowMatch (r : PositionRow) (symbol : String) : Bool :=
  upperStr (trimStr r.symbol) == upperStr symbol

/-- `pos_get` (app.py lines 424-439): `None` when Sheets is disabled,
otherwise the first row of the Positions tab whose symbol matches. -/
def pos_get (sheetsOn : Bool) (ps : List PositionRow) (symbol : String) :
    Option PositionRow :=
  if sheetsOn then ps.find? (fun r => rowMatch r symbol) else none

/-- Replace the first matching row in place, or append at the end —
the update-else-append behaviour shared by `pos_set` and `pos_flat`. -/
def writeRow (ps : List PositionRow) (symbol : String) (row : PositionRow) :
    List PositionRow :=
  match ps with
  | [] => [row]
  | r :: rest => if rowMatch r symbol then row :: rest else r :: writeRow rest symbol row

/-- `pos_set` (app.py lines 441-464). -/
def pos_set (sheetsOn : Bool) (ps : List PositionRow)
    (symbol state entry_time : String) (entry_price : Option ℚ) (shares : ℤ)
    (position_value stop_price risk_usd : ℚ) (last_event trade_id notes nowIso : String) :
    List PositionRow :=
  if sheetsOn then
    writeRow ps symbol
      ⟨upperStr symbol, state, entry_time, entry_price, some shares,
        some position_value, some stop_price, some risk_usd,
        last_event, nowIso, trade_id, notes⟩
  else ps

/-- `pos_flat` (app.py lines 466-483): writes a FLAT row with every entry
field blanked, carrying over the `trade_id` of the existing row. -/
def pos_flat (sheetsOn : Bool) (ps : List PositionRow)
    (symbol last_event notes nowIso : String) : List PositionRow :=
  if sheetsOn then
    let trade_id := match pos_get sheetsOn ps symbol with
      | some e => e.trade_id
      | none => ""
    writeRow ps symbol
      ⟨upperStr symbol, "FLAT", "", none, none, none, none, none,
        last_event, nowIso, trade_id, notes⟩
  else ps

/-- One row of the PnL tab (header at app.py lines 374-381). -/
structure PnlRow where
  trade_id : String
  date : String
  symbol : String
  entry_time : String
  exit_time : String
  entry_price : ℚ
  exit_price : ℚ
  shares : ℤ
  position_value : ℚ
  gross_pnl : ℚ
  pnl_per_share : ℚ
  return_pct : ℚ
  notes : String
deriving DecidableEq

/-- `append_pnl_row` (app.py lines 489-504); the underlying `append_row`
is a no-op while Sheets is disabled. -/
def append_pnl_row (sheetsOn : Bool) (pnl : List PnlRow)
    (trade_id symbol entry_time exit_time : String)
    (entry_price exit_price : ℚ) (shares : ℤ) (position_value : ℚ)
    (notes dateStr : String) : List PnlRow :=
  let gross_pnl := round2 ((exit_price - entry_price) * (shares : ℚ))
  let pnl_per_share := round4 (exit_price - entry_price)
  let ret_pct :=
    if entry_price > 0 then round4 ((exit_price - entry_price) / entry_price * 100) else 0
  if sheetsOn then
    pnl ++ [⟨trade_id, dateStr, upperStr symbol, entry_time, exit_time,
      entry_price, exit_price, shares, round2 position_value,
      gross_pnl, pnl_per_share, ret_pct, notes⟩]
  else pnl

/-- One row of the raw audit-log tab (header at app.py lines 358-363). -/
structure LogRow where
  timestamp : String
  symbol : String
  event : String
  mapped : String
  side : String
  price : Option ℚ
  shares : Option ℤ
  position_value : Option ℚ
  stop_price : Option ℚ
  risk_usd : Option ℚ
  status : String
  note : String
  request_id : String
deriving DecidableEq

/-- `append_row` on the raw-log tab (app.py lines 319-329): a no-op while
Sheets is disabled. -/
def append_log (sheetsOn : Bool) (rows : List LogRow) (row : LogRow) : List LogRow :=
  if sheetsOn then rows ++ [row] else rows

/-- The parsed JSON body of a `/tv` webhook.  `none` models an absent (or,
for `price`, non-numeric) field; the Python defaults are applied during
normalization exactly as in app.py lines 596-605. -/
structure Request where
  symbol : Option String
  event : Option String
  side : Option String
  risk_stop_pct : Option ℚ
  price : Option ℚ
deriving DecidableEq

/-- `str(data.get("symbol", "")).upper().strip()` (app.py line 596). -/
def normSymbol (req : Request) : String := trimStr (upperStr (req.symbol.getD ""))

/-- `str(data.get("event", "")).upper().strip()` (app.py line 597). -/
def normEvent (req : Request) : String := trimStr (upperStr (req.event.getD ""))

/-- `str(data.get("side", "long")).lower().strip()` (app.py line 598). -/
def normSide (req : Request) : String := trimStr (lowerStr (req.side.getD "long"))

/-- `float(data.get("risk_stop_pct", 2.0) or 2.0)` (app.py line 599):
an absent field defaults to 2.0, and — because `0` is falsy in Python —
a supplied zero is coerced to 2.0 as well. -/
def effStopPct (req : Request) : ℚ :=
  match req.risk_stop_pct with
  | none => 2
  | some q => if q = 0 then 2 else q

/-- The canonical action enum derived from the event vocabulary. -/
inductive Mapped
  | ENTRY
  | EXIT
deriving DecidableEq

/-- Rendering used for the `mapped` column of log rows. -/
def mappedStr : Mapped → String
  | .ENTRY => "ENTRY"
  | .EXIT => "EXIT"

/-- The event mapping of app.py lines 613-618: `BUY`/`ENTRY ↦ ENTRY`,
`SELL`/`EXIT ↦ EXIT`, anything else is unsupported. -/
def mapEvent (event : String) : Option Mapped :=
  if event = "BUY" ∨ event = "ENTRY" then some .ENTRY
  else if event = "SELL" ∨ event = "EXIT" then some .EXIT
  else none

/-- The JSON responses of the `/tv` handler, by shape.  Each constructor
corresponds to one `return jsonify(...)` site in app.py. -/
inductive TvResponse
  | badRequest (error : String)
  | cooldownResp (reason : String)
  | ignoredResp (reason : String)
  | dryRunEntry (symbol : String) (price : ℚ) (shares : ℤ)
      (position_value stop_price risk_usd : ℚ)
  | dryRunExit (symbol : String) (entry_price exit_price : ℚ) (shares : ℤ)
      (gross_pnl : ℚ)
  | liveEntry (symbol : String)
  | liveExit (symbol : String)
  | orderFailed (error : String)
deriving DecidableEq

/-- The HTTP status code attached to each response in app.py:
400 for malformed input, 500 for a failed live order, 200 otherwise
(including cooldown blocks and idempotent ignores). -/
def TvResponse.statusCode : TvResponse → ℕ
  | .badRequest _ => 400
  | .cooldownResp _ => 200
  | .ignoredResp _ => 200
  | .dryRunEntry _ _ _ _ _ _ => 200
  | .dryRunExit _ _ _ _ _ => 200
  | .liveEntry _ => 200
  | .liveExit _ => 200
  | .orderFailed _ => 500

/-- All mutable state observable across requests: the in-memory cooldown
timestamps and the three relevant Sheets tabs. -/
structure World where
  cooldown : CooldownState
  positions : List PositionRow
  pnl : List PnlRow
  rawLog : List LogRow
deriving DecidableEq

/-- `f"\x7bsymbol\x7d-\x7bint(time.time())\x7d"` — the generated trade id. -/
def mkTradeId (symbol : String) (now : ℚ) : String :=
  symbol ++ "-" ++ toString ⌊now⌋

/-- `current.get("state") ... or "FLAT"` (app.py line 634): a missing row
or an empty state cell reads as FLAT. -/
def stateOf (current : Option PositionRow) : String :=
  match current with
  | some c => if c.state = "" then "FLAT" else c.state
  | none => "FLAT"

/-- The `/tv` handler (app.py lines 580-832) as a pure state transition.
Inputs that the Python reads from the environment are taken as explicit
parameters: `now` is `time.time()`, `nowIso` is `now_iso()`, `dateStr` is
the UTC date used by `append_pnl_row`, `reqId` is the generated request
id, and `brokerFails` tells whether `qt_place_market_order` raises.
The Daily-recompute and Dashboard writes touch only tabs outside the
model and are omitted. -/
def tv (cfg : Config) (w : World) (req : Request) (now : ℚ)
    (nowIso dateStr reqId : String) (brokerFails : Bool) : TvResponse × World :=
  let symbol := normSymbol req
  let event := normEvent req
  let side := normSide req
  let risk_stop_pct := effStopPct req
  let price := req.price
  if symbol = "" then (.badRequest "Missing symbol", w)
  else if ¬ side = "long" then (.badRequest "Only long side supported", w)
  else
    match mapEvent event with
    | none => (.badRequest "Unsupported event", w)
    | some mapped =>
      match cooldown_block cfg w.cooldown symbol now with
      | some cd =>
        (.cooldownResp cd,
          { w with
            rawLog := append_log cfg.sheetsOn w.rawLog
              ⟨nowIso, symbol, event, mappedStr mapped, side, price,
                none, none, none, none, "cooldown", cd, reqId⟩ })
      | none =>
        let current := if cfg.sheetsOn then pos_get cfg.sheetsOn w.positions symbol else none
        let state := stateOf current
        if mapped = .ENTRY ∧ state = "LONG" then
          (.ignoredResp "Already in position (LONG)",
            { w with
              rawLog := append_log cfg.sheetsOn w.rawLog
                ⟨nowIso, symbol, event, mappedStr mapped, side, price, none, none,
                  none, none, "ignored", "Already in position (LONG)", reqId⟩ })
        else if mapped = .EXIT ∧ ¬ state = "LONG" then
          (.ignoredResp "No open position to exit",
            { w with
              rawLog := append_log cfg.sheetsOn w.rawLog
                ⟨nowIso, symbol, event, mappedStr mapped, side, price, none, none,
                  none, none, "ignored", "No open position to exit", reqId⟩ })
        else
          match price with
          | none =>
            (.badRequest "missing_price",
              { w with
                rawLog := append_log cfg.sheetsOn w.rawLog
                  ⟨nowIso, symbol, event, mappedStr mapped, side, none, none, none,
                    none, none, "error",
                    "Missing price. Include price in TradingView webhook JSON.", reqId⟩ })
          | some price =>
            let sz := calc_shares cfg price risk_stop_pct
            let stop_price := calc_stop_price price risk_stop_pct
            let w1 := { w with cooldown := cooldown_mark w.cooldown symbol now }
            if cfg.dryRun then
              match mapped with
              | .ENTRY =>
                let trade_id := mkTradeId symbol now
                (.dryRunEntry symbol price sz.shares sz.position_value stop_price sz.risk_usd,
                  { w1 with
                    positions := pos_set cfg.sheetsOn w1.positions symbol "LONG" nowIso
                      (some price) sz.shares sz.position_value stop_price sz.risk_usd
                      "ENTRY" trade_id (noteStr sz.note) nowIso,
                    rawLog := append_log cfg.sheetsOn w1.rawLog
                      ⟨nowIso, symbol, event, mappedStr mapped, side, some price,
                        some sz.shares, some sz.position_value, some stop_price,
                        some sz.risk_usd, "dry_run", noteStr sz.note, reqId⟩ })
              | .EXIT =>
                match current with
                | none => (.ignoredResp "No position record", w1)
                | some cur =>
                  let entry_price := cur.entry_price.getD 0
                  let entry_time := cur.entry_time
                  let entry_shares := cur.shares.getD 0
                  let trade_id := if cur.trade_id = "" then mkTradeId symbol now else cur.trade_id
                  let gross_pnl :=
                    if entry_shares = 0 then 0
                    else round2 ((price - entry_price) * (entry_shares : ℚ))
                  (.dryRunExit symbol entry_price price entry_shares gross_pnl,
                    { w1 with
                      rawLog := append_log cfg.sheetsOn w1.rawLog
                        ⟨nowIso, symbol, event, mappedStr mapped, side, some price,
                          some entry_shares, some (round2 ((entry_shares : ℚ) * price)),
                          none, none, "dry_run_exit",
                          "dry_run_exit_pnl=" ++ toString gross_pnl, reqId⟩,
                      pnl := append_pnl_row cfg.sheetsOn w1.pnl trade_id symbol
                        entry_time nowIso entry_price price entry_shares
                        ((entry_shares : ℚ) * entry_price) "dry_run" dateStr,
                      positions := pos_flat cfg.sheetsOn w1.positions symbol
                        "EXIT" "closed in dry_run" nowIso })
            else
              match mapped with
              | .ENTRY =>
                if brokerFails then
                  (.orderFailed "order_failed",
                    { w1 with
                      rawLog := append_log cfg.sheetsOn w1.rawLog
                        ⟨nowIso, symbol, event, mappedStr mapped, side, some price,
                          some sz.shares, some sz.position_value, some stop_price,
                          some sz.risk_usd, "error", "live order failed", reqId⟩ })
                else
                  let trade_id := mkTradeId symbol now
                  (.liveEntry symbol,
                    { w1 with
                      positions := pos_set cfg.sheetsOn w1.positions symbol "LONG" nowIso
                        (some price) sz.shares sz.position_value stop_price sz.risk_usd
                        "ENTRY" trade_id ("LIVE: " ++ noteStr sz.note) nowIso,
                      rawLog := append_log cfg.sheetsOn w1.rawLog
                        ⟨nowIso, symbol, event, mappedStr mapped, side, some price,
                          some sz.shares, some sz.position_value, some stop_price,
                          some sz.risk_usd, "live_entry", "Order sent", reqId⟩ })
              | .EXIT =>
                let current2 := if cfg.sheetsOn then pos_get cfg.sheetsOn w1.positions symbol else none
                let entry_shares := match current2 with
                  | some c => c.shares.getD sz.shares
                  | none => sz.shares
                let entry_price : Option ℚ := current2.map (fun c => c.entry_price.getD 0)
                let entry_time := match current2 with
                  | some c => c.entry_time
                  | none => ""
                let trade_id := match current2 with
                  | some c => if c.trade_id = "" then mkTradeId symbol now else c.trade_id
                  | none => mkTradeId symbol now
                if brokerFails then
                  (.orderFailed "order_failed",
                    { w1 with
                      rawLog := append_log cfg.sheetsOn w1.rawLog
                        ⟨nowIso, symbol, event, mappedStr mapped, side, some price,
                          some sz.shares, some sz.position_value, some stop_price,
                          some sz.risk_usd, "error", "live order failed", reqId⟩ })
                else
                  let w2 := { w1 with
                    rawLog := append_log cfg.sheetsOn w1.rawLog
                      ⟨nowIso, symbol, event, mappedStr mapped, side, some price,
                        some entry_shares, some (round2 ((entry_shares : ℚ) * price)),
                        none, none, "live_exit", "Order sent", reqId⟩ }
                  let w3 := match entry_price with
                    | some ep =>
                      if entry_shares = 0 then w2
                      else { w2 with
                        pnl := append_pnl_row cfg.sheetsOn w2.pnl trade_id symbol
                          entry_time nowIso ep price entry_shares
                          (ep * (entry_shares : ℚ)) "live" dateStr }
                    | none => w2
                  (.liveExit symbol,
                    { w3 with
                      positions := pos_flat cfg.sheetsOn w3.positions symbol
                        "EXIT" "closed live" nowIso })

/-! ### Concrete fixtures used by witnesses and counterexamples -/

/-- Dry-run, fixed-notional sizing, Sheets on, no cooldowns, no cap —
the configuration of the spec scenarios. -/
def cfg0 : Config := ⟨true, false, 1000, 50, 0, 0, 0, true⟩

/-- Same as `cfg0` but with risk sizing enabled. -/
def cfgRisk : Config := ⟨true, true, 1000, 50, 0, 0, 0, true⟩

/-- Live mode (dry run off), fixed-notional sizing, Sheets on. -/
def cfgLive : Config := ⟨false, false, 1000, 50, 0, 0, 0, true⟩

/-- Dry run with a 5-second global cooldown. -/
def cfgCd : Config := ⟨true, false, 1000, 50, 0, 5, 0, true⟩

/-- Dry run with the ledger (Sheets) disabled. -/
def cfgOff : Config := ⟨true, false, 1000, 50, 0, 0, 0, false⟩

/-- Empty initial world. -/
def w0 : World := ⟨⟨0, []⟩, [], [], []⟩

/-- World whose global cooldown timestamp was marked at t = 1000. -/
def wCd : World := ⟨⟨1000, [("ABC", 1000)]⟩, [], [], []⟩

/-- A persisted LONG position for ABC: 100 shares entered at 10.00. -/
def rowLong : PositionRow :=
  ⟨"ABC", "LONG", "T0", some 10, some 100, some 1000, some (98/10), some 50,
    "ENTRY", "T0", "T1", "n"⟩

/-- World holding `rowLong` in the Positions tab. -/
def wLong : World := ⟨⟨0, []⟩, [rowLong], [], []⟩

/-- `\x7bsymbol:"ABC", event:"BUY", side:"long", risk_stop_pct:2, price:10\x7d`. -/
def req1 : Request := ⟨some "ABC", some "BUY", some "long", some 2, some 10⟩

/-- The matching exit signal at price 10.50. -/
def reqExit : Request := ⟨some "ABC", some "SELL", some "long", some 2, some (21/2)⟩

/-- An entry signal with no price attached. -/
def reqNoPrice : Request := ⟨some "ABC", some "BUY", some "long", some 2, none⟩

/-- An entry signal carrying `risk_stop_pct = 0`. -/
def reqStop0 : Request := ⟨some "ABC", some "BUY", some "long", some 0, some 10⟩

/-- An entry signal with no symbol field. -/
def reqNoSym : Request := ⟨none, some "BUY", some "long", some 2, some 10⟩

/-- Dry-run, fixed-notional sizing with a 500-dollar notional cap. -/
def cfgCap : Config := ⟨true, false, 1000, 50, 500, 0, 0, true⟩

/-- Risk sizing with a 500-dollar notional cap. -/
def cfgRiskCap : Config := ⟨true, true, 1000, 50, 500, 0, 0, true⟩

end QuestradeBot

namespace QuestradeBot

/-! ### Helper lemmas about the embedded operations -/

lemma ite_pos_get (cfg : Config) (ps : List PositionRow) (s : String) :
    (if cfg.sheetsOn then pos_get cfg.sheetsOn ps s else none) = pos_get cfg.sheetsOn ps s := by
  cases h : cfg.sheetsOn <;> simp [pos_get, h]

lemma cooldown_block_of_nonpos (cfg : Config) (st : CooldownState) (s : String) (now : ℚ)
    (h1 : cfg.globalCooldownSec ≤ 0) (h2 : cfg.symbolCooldownSec ≤ 0) :
    cooldown_block cfg st s now = none := by
  unfold cooldown_block
  rw [if_neg, if_neg]
  · rintro ⟨hg, -⟩; omega
  · rintro ⟨hg, -⟩; omega

lemma symbolTs_mark_self (st : CooldownState) (s : String) (now : ℚ) :
    symbolTs (cooldown_mark st s now) s = now := by
  simp [symbolTs, cooldown_mark, List.find?]

lemma lastGlobal_mark (st : CooldownState) (s : String) (now : ℚ) :
    (cooldown_mark st s now).lastGlobalTs = now := rfl

lemma pos_get_off (ps : List PositionRow) (s : String) : pos_get false ps s = none := by
  simp [pos_get]

lemma stateOf_off (ps : List PositionRow) (s : String) :
    stateOf (pos_get false ps s) = "FLAT" := by
  simp [pos_get_off, stateOf]

lemma append_log_off (rows : List LogRow) (row : LogRow) :
    append_log false rows row = rows := by
  simp [append_log]

lemma pos_set_off (ps : List PositionRow) (a b c : String) (d : Option ℚ) (e : ℤ)
    (f g h : ℚ) (i j k l : String) : pos_set false ps a b c d e f g h i j k l = ps := by
  simp [pos_set]

lemma pos_flat_off (ps : List PositionRow) (a b c d : String) :
    pos_flat false ps a b c d = ps := by
  simp [pos_flat]

lemma append_pnl_row_off (pnl : List PnlRow) (a b c d : String) (e f : ℚ) (g : ℤ)
    (h : ℚ) (i j : String) : append_pnl_row false pnl a b c d e f g h i j = pnl := by
  simp [append_pnl_row]

lemma find?_append_none {α : Type} (p : α → Bool) (as bs : List α)
    (h : as.find? p = none) : (as ++ bs).find? p = bs.find? p := by
  induction as with
  | nil => simp
  | cons a rest ih =>
    rw [List.find?_cons] at h
    cases hp : p a with
    | true => simp [hp] at h
    | false =>
      simp only [hp] at h
      simp only [List.cons_append, List.find?_cons, hp]
      exact ih h

lemma find?_writeRow (ps : List PositionRow) (s : String) (row : PositionRow)
    (h : rowMatch row s = true) :
    (writeRow ps s row).find? (fun r => rowMatch r s) = some row := by
  induction ps with
  | nil => simp [writeRow, List.find?, h]
  | cons r rest ih =>
    by_cases hr : rowMatch r s
    · simp [writeRow, hr, List.find?, h]
    · simp only [writeRow, hr, if_false, Bool.false_eq_true, ite_false]
      rw [List.find?_cons]
      simp [hr, ih]

lemma writeRow_not_found (ps : List PositionRow) (s : String) (row : PositionRow)
    (h : ps.find? (fun r => rowMatch r s) = none) :
    writeRow ps s row = ps ++ [row] := by
  induction ps with
  | nil => simp [writeRow]
  | cons r rest ih =>
    rw [List.find?_cons] at h
    cases hr : rowMatch r s with
    | true => simp [hr] at h
    | false =>
      simp only [hr] at h
      simp [writeRow, hr, ih h]

lemma filter_eq_nil_of_find?_none (ps : List PositionRow) (s : String)
    (h : ps.find? (fun r => rowMatch r s) = none) :
    ps.filter (fun r => rowMatch r s) = [] := by
  rw [List.find?_eq_none] at h
  rw [List.filter_eq_nil_iff]
  exact fun a ha => by simpa using h a ha

lemma rowMatch_canon (row : PositionRow) (s : String)
    (hrow : row.symbol = upperStr s) (hU : upperStr s = s) (hT : trimStr s = s) :
    rowMatch row s = true := by
  simp [rowMatch, hrow, hU, hT]

end QuestradeBot

namespace QuestradeBot

/-! ### Path lemmas: one per terminal branch of the `tv` handler -/

lemma tv_reject_symbol (cfg : Config) (w : World) (req : Request) (now : ℚ)
    (nowIso dateStr reqId : String) (bf : Bool)
    (hs : normSymbol req = "") :
    tv cfg w req now nowIso dateStr reqId bf = (.badRequest "Missing symbol", w) := by
  simp [tv, hs]

lemma tv_reject_side (cfg : Config) (w : World) (req : Request) (now : ℚ)
    (nowIso dateStr reqId : String) (bf : Bool) (s : String)
    (hs : normSymbol req = s) (h1 : ¬ s = "") (h2 : ¬ normSide req = "long") :
    tv cfg w req now nowIso dateStr reqId bf = (.badRequest "Only long side supported", w) := by
  simp [tv, hs, h1, h2]

lemma tv_reject_event (cfg : Config) (w : World) (req : Request) (now : ℚ)
    (nowIso dateStr reqId : String) (bf : Bool) (s : String)
    (hs : normSymbol req = s) (h1 : ¬ s = "") (h2 : normSide req = "long")
    (h3 : mapEvent (normEvent req) = none) :
    tv cfg w req now nowIso dateStr reqId bf = (.badRequest "Unsupported event", w) := by
  simp only [tv, hs, h2, h3, if_neg h1]
  simp

lemma tv_cooldown_blocked (cfg : Config) (w : World) (req : Request) (now : ℚ)
    (nowIso dateStr reqId : String) (bf : Bool) (s cd : String) (m : Mapped)
    (hs : normSymbol req = s) (h1 : ¬ s = "") (h2 : normSide req = "long")
    (h3 : mapEvent (normEvent req) = some m)
    (hcd : cooldown_block cfg w.cooldown s now = some cd) :
    tv cfg w req now nowIso dateStr reqId bf =
      (.cooldownResp cd,
        { w with
          rawLog := append_log cfg.sheetsOn w.rawLog
            ⟨nowIso, s, normEvent req, mappedStr m, "long", req.price,
              none, none, none, none, "cooldown", cd, reqId⟩ }) := by
  simp only [tv, hs, h2, h3, hcd, if_neg h1]
  simp

lemma tv_entry_ignored (cfg : Config) (w : World) (req : Request) (now : ℚ)
    (nowIso dateStr reqId : String) (bf : Bool) (s : String)
    (hs : normSymbol req = s) (h1 : ¬ s = "") (h2 : normSide req = "long")
    (h3 : mapEvent (normEvent req) = some .ENTRY)
    (hcd : cooldown_block cfg w.cooldown s now = none)
    (hst : stateOf (pos_get cfg.sheetsOn w.positions s) = "LONG") :
    tv cfg w req now nowIso dateStr reqId bf =
      (.ignoredResp "Already in position (LONG)",
        { w with
          rawLog := append_log cfg.sheetsOn w.rawLog
            ⟨nowIso, s, normEvent req, "ENTRY", "long", req.price, none, none,
              none, none, "ignored", "Already in position (LONG)", reqId⟩ }) := by
  simp only [tv, ite_pos_get, hs, h2, h3, hcd, if_neg h1]
  simp [hst, mappedStr]

lemma tv_exit_ignored (cfg : Config) (w : World) (req : Request) (now : ℚ)
    (nowIso dateStr reqId : String) (bf : Bool) (s : String)
    (hs : normSymbol req = s) (h1 : ¬ s = "") (h2 : normSide req = "long")
    (h3 : mapEvent (normEvent req) = some .EXIT)
    (hcd : cooldown_block cfg w.cooldown s now = none)
    (hst : ¬ stateOf (pos_get cfg.sheetsOn w.positions s) = "LONG") :
    tv cfg w req now nowIso dateStr reqId bf =
      (.ignoredResp "No open position to exit",
        { w with
          rawLog := append_log cfg.sheetsOn w.rawLog
            ⟨nowIso, s, normEvent req, "EXIT", "long", req.price, none, none,
              none, none, "ignored", "No open position to exit", reqId⟩ }) := by
  simp only [tv, ite_pos_get, hs, h2, h3, hcd, if_neg h1]
  simp [hst, mappedStr]

lemma tv_missing_price (cfg : Config) (w : World) (req : Request) (now : ℚ)
    (nowIso dateStr reqId : String) (bf : Bool) (s : String) (m : Mapped)
    (hs : normSymbol req = s) (h1 : ¬ s = "") (h2 : normSide req = "long")
    (h3 : mapEvent (normEvent req) = some m)
    (hcd : cooldown_block cfg w.cooldown s now = none)
    (hpass : (m = .ENTRY ∧ ¬ stateOf (pos_get cfg.sheetsOn w.positions s) = "LONG") ∨
             (m = .EXIT ∧ stateOf (pos_get cfg.sheetsOn w.positions s) = "LONG"))
    (hp : req.price = none) :
    tv cfg w req now nowIso dateStr reqId bf =
      (.badRequest "missing_price",
        { w with
          rawLog := append_log cfg.sheetsOn w.rawLog
            ⟨nowIso, s, normEvent req, mappedStr m, "long", none, none, none,
              none, none, "error",
              "Missing price. Include price in TradingView webhook JSON.", reqId⟩ }) := by
  rcases hpass with ⟨hm, hst⟩ | ⟨hm, hst⟩ <;> subst hm <;>
    simp only [tv, ite_pos_get, hs, h2, h3, hcd, hp, if_neg h1] <;>
    simp [hst, mappedStr]

lemma tv_dry_entry (cfg : Config) (w : World) (req : Request) (now : ℚ)
    (nowIso dateStr reqId : String) (bf : Bool) (s : String) (p : ℚ)
    (hs : normSymbol req = s) (h1 : ¬ s = "") (h2 : normSide req = "long")
    (h3 : mapEvent (normEvent req) = some .ENTRY)
    (hcd : cooldown_block cfg w.cooldown s now = none)
    (hst : ¬ stateOf (pos_get cfg.sheetsOn w.positions s) = "LONG")
    (hp : req.price = some p)
    (hdry : cfg.dryRun = true) :
    tv cfg w req now nowIso dateStr reqId bf =
      (.dryRunEntry s p (calc_shares cfg p (effStopPct req)).shares
          (calc_shares cfg p (effStopPct req)).position_value
          (calc_stop_price p (effStopPct req))
          (calc_shares cfg p (effStopPct req)).risk_usd,
        { w with
          cooldown := cooldown_mark w.cooldown s now,
          positions := pos_set cfg.sheetsOn w.positions s "LONG" nowIso (some p)
            (calc_shares cfg p (effStopPct req)).shares
            (calc_shares cfg p (effStopPct req)).position_value
            (calc_stop_price p (effStopPct req))
            (calc_shares cfg p (effStopPct req)).risk_usd
            "ENTRY" (mkTradeId s now) (noteStr (calc_shares cfg p (effStopPct req)).note) nowIso,
          rawLog := append_log cfg.sheetsOn w.rawLog
            ⟨nowIso, s, normEvent req, "ENTRY", "long", some p,
              some (calc_shares cfg p (effStopPct req)).shares,
              some (calc_shares cfg p (effStopPct req)).position_value,
              some (calc_stop_price p (effStopPct req)),
              some (calc_shares cfg p (effStopPct req)).risk_usd,
              "dry_run", noteStr (calc_shares cfg p (effStopPct req)).note, reqId⟩ }) := by
  simp only [tv, ite_pos_get, hs, h2, h3, hcd, hp, hdry, if_neg h1]
  simp [hst, mappedStr]

lemma tv_dry_exit (cfg : Config) (w : World) (req : Request) (now : ℚ)
    (nowIso dateStr reqId : String) (bf : Bool) (s : String) (p : ℚ) (cur : PositionRow)
    (hs : normSymbol req = s) (h1 : ¬ s = "") (h2 : normSide req = "long")
    (h3 : mapEvent (normEvent req) = some .EXIT)
    (hcd : cooldown_block cfg w.cooldown s now = none)
    (hcur : pos_get cfg.sheetsOn w.positions s = some cur)
    (hst : stateOf (pos_get cfg.sheetsOn w.positions s) = "LONG")
    (hp : req.price = some p)
    (hdry : cfg.dryRun = true) :
    tv cfg w req now nowIso dateStr reqId bf =
      (.dryRunExit s (cur.entry_price.getD 0) p (cur.shares.getD 0)
          (if cur.shares.getD 0 = 0 then 0
           else round2 ((p - cur.entry_price.getD 0) * ((cur.shares.getD 0 : ℤ) : ℚ))),
        { w with
          cooldown := cooldown_mark w.cooldown s now,
          positions := pos_flat cfg.sheetsOn w.positions s "EXIT" "closed in dry_run" nowIso,
          pnl := append_pnl_row cfg.sheetsOn w.pnl
            (if cur.trade_id = "" then mkTradeId s now else cur.trade_id) s
            cur.entry_time nowIso (cur.entry_price.getD 0) p (cur.shares.getD 0)
            (((cur.shares.getD 0 : ℤ) : ℚ) * cur.entry_price.getD 0) "dry_run" dateStr,
          rawLog := append_log cfg.sheetsOn w.rawLog
            ⟨nowIso, s, normEvent req, "EXIT", "long", some p,
              some (cur.shares.getD 0), some (round2 (((cur.shares.getD 0 : ℤ) : ℚ) * p)),
              none, none, "dry_run_exit",
              "dry_run_exit_pnl=" ++ toString
                (if cur.shares.getD 0 = 0 then 0
                 else round2 ((p - cur.entry_price.getD 0) * ((cur.shares.getD 0 : ℤ) : ℚ))),
              reqId⟩ }) := by
  have hsh : cfg.sheetsOn = true := by
    cases h : cfg.sheetsOn
    · rw [h] at hcur; simp [pos_get] at hcur
    · rfl
  have hcur2 : pos_get true w.positions s = some cur := hsh ▸ hcur
  have hst2 : stateOf (some cur) = "LONG" := by rw [hcur] at hst; exact hst
  simp only [tv, hs, h2, h3, hcd, hp, hdry, hsh, if_neg h1]
  simp [hcur2, hst2, mappedStr]

end QuestradeBot

namespace QuestradeBot

lemma tv_live_entry_fail (cfg : Config) (w : World) (req : Request) (now : ℚ)
    (nowIso dateStr reqId : String) (s : String) (p : ℚ)
    (hs : normSymbol req = s) (h1 : ¬ s = "") (h2 : normSide req = "long")
    (h3 : mapEvent (normEvent req) = some .ENTRY)
    (hcd : cooldown_block cfg w.cooldown s now = none)
    (hst : ¬ stateOf (pos_get cfg.sheetsOn w.positions s) = "LONG")
    (hp : req.price = some p)
    (hlive : cfg.dryRun = false) :
    tv cfg w req now nowIso dateStr reqId true =
      (.orderFailed "order_failed",
        { w with
          cooldown := cooldown_mark w.cooldown s now,
          rawLog := append_log cfg.sheetsOn w.rawLog
            ⟨nowIso, s, normEvent req, "ENTRY", "long", some p,
              some (calc_shares cfg p (effStopPct req)).shares,
              some (calc_shares cfg p (effStopPct req)).position_value,
              some (calc_stop_price p (effStopPct req)),
              some (calc_shares cfg p (effStopPct req)).risk_usd,
              "error", "live order failed", reqId⟩ }) := by
  simp only [tv, ite_pos_get, hs, h2, h3, hcd, hp, hlive, if_neg h1]
  simp [hst, mappedStr]

lemma tv_live_entry_ok (cfg : Config) (w : World) (req : Request) (now : ℚ)
    (nowIso dateStr reqId : String) (s : String) (p : ℚ)
    (hs : normSymbol req = s) (h1 : ¬ s = "") (h2 : normSide req = "long")
    (h3 : mapEvent (normEvent req) = some .ENTRY)
    (hcd : cooldown_block cfg w.cooldown s now = none)
    (hst : ¬ stateOf (pos_get cfg.sheetsOn w.positions s) = "LONG")
    (hp : req.price = some p)
    (hlive : cfg.dryRun = false) :
    tv cfg w req now nowIso dateStr reqId false =
      (.liveEntry s,
        { w with
          cooldown := cooldown_mark w.cooldown s now,
          positions := pos_set cfg.sheetsOn w.positions s "LONG" nowIso (some p)
            (calc_shares cfg p (effStopPct req)).shares
            (calc_shares cfg p (effStopPct req)).position_value
            (calc_stop_price p (effStopPct req))
            (calc_shares cfg p (effStopPct req)).risk_usd
            "ENTRY" (mkTradeId s now)
            ("LIVE: " ++ noteStr (calc_shares cfg p (effStopPct req)).note) nowIso,
          rawLog := append_log cfg.sheetsOn w.rawLog
            ⟨nowIso, s, normEvent req, "ENTRY", "long", some p,
              some (calc_shares cfg p (effStopPct req)).shares,
              some (calc_shares cfg p (effStopPct req)).position_value,
              some (calc_stop_price p (effStopPct req)),
              some (calc_shares cfg p (effStopPct req)).risk_usd,
              "live_entry", "Order sent", reqId⟩ }) := by
  simp only [tv, ite_pos_get, hs, h2, h3, hcd, hp, hlive, if_neg h1]
  simp [hst, mappedStr]

lemma tv_live_exit_fail (cfg : Config) (w : World) (req : Request) (now : ℚ)
    (nowIso dateStr reqId : String) (s : String) (p : ℚ)
    (hs : normSymbol req = s) (h1 : ¬ s = "") (h2 : normSide req = "long")
    (h3 : mapEvent (normEvent req) = some .EXIT)
    (hcd : cooldown_block cfg w.cooldown s now = none)
    (hst : stateOf (pos_get cfg.sheetsOn w.positions s) = "LONG")
    (hp : req.price = some p)
    (hlive : cfg.dryRun = false) :
    tv cfg w req now nowIso dateStr reqId true =
      (.orderFailed "order_failed",
        { w with
          cooldown := cooldown_mark w.cooldown s now,
          rawLog := append_log cfg.sheetsOn w.rawLog
            ⟨nowIso, s, normEvent req, "EXIT", "long", some p,
              some (calc_shares cfg p (effStopPct req)).shares,
              some (calc_shares cfg p (effStopPct req)).position_value,
              some (calc_stop_price p (effStopPct req)),
              some (calc_shares cfg p (effStopPct req)).risk_usd,
              "error", "live order failed", reqId⟩ }) := by
  simp only [tv, ite_pos_get, hs, h2, h3, hcd, hp, hlive, if_neg h1]
  simp [hst, mappedStr]

lemma tv_live_exit_ok (cfg : Config) (w : World) (req : Request) (now : ℚ)
    (nowIso dateStr reqId : String) (s : String) (p : ℚ) (cur : PositionRow)
    (hs : normSymbol req = s) (h1 : ¬ s = "") (h2 : normSide req = "long")
    (h3 : mapEvent (normEvent req) = some .EXIT)
    (hcd : cooldown_block cfg w.cooldown s now = none)
    (hcur : pos_get cfg.sheetsOn w.positions s = some cur)
    (hst : stateOf (pos_get cfg.sheetsOn w.positions s) = "LONG")
    (hp : req.price = some p)
    (hlive : cfg.dryRun = false) :
    tv cfg w req now nowIso dateStr reqId false =
      (.liveExit s,
        { w with
          cooldown := cooldown_mark w.cooldown s now,
          positions := pos_flat cfg.sheetsOn w.positions s "EXIT" "closed live" nowIso,
          pnl :=
            (if cur.shares.getD (calc_shares cfg p (effStopPct req)).shares = 0 then w.pnl
             else append_pnl_row cfg.sheetsOn w.pnl
               (if cur.trade_id = "" then mkTradeId s now else cur.trade_id) s
               cur.entry_time nowIso (cur.entry_price.getD 0) p
               (cur.shares.getD (calc_shares cfg p (effStopPct req)).shares)
               (cur.entry_price.getD 0 *
                 ((cur.shares.getD (calc_shares cfg p (effStopPct req)).shares : ℤ) : ℚ))
               "live" dateStr),
          rawLog := append_log cfg.sheetsOn w.rawLog
            ⟨nowIso, s, normEvent req, "EXIT", "long", some p,
              some (cur.shares.getD (calc_shares cfg p (effStopPct req)).shares),
              some (round2
                (((cur.shares.getD (calc_shares cfg p (effStopPct req)).shares : ℤ) : ℚ) * p)),
              none, none, "live_exit", "Order sent", reqId⟩ }) := by
  have hsh : cfg.sheetsOn = true := by
    cases h : cfg.sheetsOn
    · rw [h] at hcur; simp [pos_get] at hcur
    · rfl
  have hcur2 : pos_get true w.positions s = some cur := hsh ▸ hcur
  have hst2 : stateOf (some cur) = "LONG" := by rw [hcur] at hst; exact hst
  simp only [tv, hs, h2, h3, hcd, hp, hlive, hsh, if_neg h1]
  simp [hcur2, hst2, mappedStr]
  by_cases hz : cur.shares.getD (calc_shares cfg p (effStopPct req)).shares = 0 <;>
    simp [hz]

end QuestradeBot

namespace QuestradeBot

/-! ### Sizing and rounding lemmas -/

lemma round2_zero : round2 0 = 0 := by
  simp [round2]

lemma round_le_int (x : ℚ) (k : ℤ) (h : x ≤ (k : ℚ)) : round x ≤ k := by
  rw [round_eq]
  have h2 : x + 1/2 ≤ (k : ℚ) + 1/2 := by linarith
  have h3 : ⌊x + 1/2⌋ ≤ ⌊(k : ℚ) + 1/2⌋ := Int.floor_le_floor h2
  rwa [Int.floor_int_add, show ⌊(1/2 : ℚ)⌋ = 0 by norm_num, add_zero] at h3

lemma round2_le_cents (v : ℚ) (k : ℤ) (h : v ≤ (k : ℚ) / 100) :
    round2 v ≤ (k : ℚ) / 100 := by
  unfold round2
  have h1 : v * 100 ≤ (k : ℚ) := by
    have h2 := mul_le_mul_of_nonneg_right h (by norm_num : (0:ℚ) ≤ 100)
    rwa [div_mul_cancel₀ _ (by norm_num : (100:ℚ) ≠ 0)] at h2
  have h3 : round (v * 100) ≤ k := round_le_int _ _ h1
  have h4 : ((round (v * 100) : ℤ) : ℚ) ≤ (k : ℚ) := by exact_mod_cast h3
  linarith

lemma round2_cents (k : ℤ) : round2 ((k : ℚ) / 100) = (k : ℚ) / 100 := by
  unfold round2
  rw [div_mul_cancel₀ _ (by norm_num : (100:ℚ) ≠ 0), round_intCast]

lemma one_le_shares (cfg : Config) (price pct : ℚ) (hp : 0 < price)
    (hr : cfg.useRiskSizing = true → 0 < pct) :
    1 ≤ (calc_shares cfg price pct).shares := by
  unfold calc_shares
  rw [if_neg (not_le.mpr hp)]
  cases hrs : cfg.useRiskSizing with
  | true =>
    have hpd : 0 < price * (pct / 100) :=
      mul_pos hp (div_pos (hr hrs) (by norm_num))
    simp only [hrs, if_true]
    rw [if_neg (not_le.mpr hpd)]
    split_ifs <;> simp [le_max_left]
  | false =>
    simp only [hrs, Bool.false_eq_true, if_false]
    split_ifs <;> simp [le_max_left]

end QuestradeBot

namespace QuestradeBot

/-! ### Claim C6 -/

/-- C6: Sizing floor — for every price > 0 (with a stop percentage
yielding a valid stop in risk mode), `calc_shares` returns at least one
share, under both fixed-notional and risk sizing, including after the
`MAX_POSITION_USD` clamp. -/
theorem C6_sizing_floor (cfg : Config) (price pct : ℚ) (hp : 0 < price)
    (hr : cfg.useRiskSizing = true → 0 < pct) :
    1 ≤ (calc_shares cfg price pct).shares :=
  one_le_shares cfg price pct hp hr

/-- Witness for C6 at the spec scenario (fixed-notional, price 10) and at
a risk-sizing configuration. -/
theorem C6_sizing_floor_witness :
    (0 < (10 : ℚ) ∧ 1 ≤ (calc_shares cfg0 10 2).shares) ∧
    (0 < (10 : ℚ) ∧ 1 ≤ (calc_shares cfgRisk 10 2).shares) :=
  ⟨⟨by norm_num, C6_sizing_floor cfg0 10 2 (by norm_num) (fun h => by norm_num)⟩,
   ⟨by norm_num, C6_sizing_floor cfgRisk 10 2 (by norm_num) (fun h => by norm_num)⟩⟩

end QuestradeBot

namespace QuestradeBot

/-! ### Claim C7 -/

/-- C7: Notional cap respected — for every price > 0, if
`maxPositionUsd > 0` then the returned position value is at most
`maxPositionUsd`, or exactly one share was bought and the position value
equals the price (the "one share of rounding" case, which occurs when a
single share already exceeds the cap); and in risk mode the returned risk
is `round2 (shares * stopDistance)` (recomputed after the clamp).  The
hypotheses `hMc`/`hPc` say the cap and the price are whole-cent amounts,
so that rounding to two decimals cannot push the value past the cap. -/
theorem C7_notional_cap (cfg : Config) (price pct : ℚ) (hp : 0 < price)
    (hM : 0 < cfg.maxPositionUsd)
    (hMc : ∃ k : ℤ, cfg.maxPositionUsd = (k : ℚ) / 100)
    (hPc : ∃ j : ℤ, price = (j : ℚ) / 100) :
    ((calc_shares cfg price pct).position_value ≤ cfg.maxPositionUsd ∨
      ((calc_shares cfg price pct).shares = 1 ∧
        (calc_shares cfg price pct).position_value = price)) ∧
    (cfg.useRiskSizing = true →
      (calc_shares cfg price pct).risk_usd =
        round2 (((calc_shares cfg price pct).shares : ℚ) * (price * (pct / 100)))) := by
  obtain ⟨k, hk⟩ := hMc
  obtain ⟨j, hj⟩ := hPc
  have hple : ¬ price ≤ 0 := not_le.mpr hp
  have hfloor_mul : ((⌊cfg.maxPositionUsd / price⌋ : ℤ) : ℚ) * price ≤ cfg.maxPositionUsd := by
    have h1 : ((⌊cfg.maxPositionUsd / price⌋ : ℤ) : ℚ) ≤ cfg.maxPositionUsd / price :=
      Int.floor_le _
    calc ((⌊cfg.maxPositionUsd / price⌋ : ℤ) : ℚ) * price
        ≤ cfg.maxPositionUsd / price * price :=
          mul_le_mul_of_nonneg_right h1 (le_of_lt hp)
      _ = cfg.maxPositionUsd := div_mul_cancel₀ _ (ne_of_gt hp)
  have hclamped : round2 (((max 1 ⌊cfg.maxPositionUsd / price⌋ : ℤ) : ℚ) * price) ≤
        cfg.maxPositionUsd ∨
      ((max 1 ⌊cfg.maxPositionUsd / price⌋ : ℤ) = 1 ∧
        round2 (((max 1 ⌊cfg.maxPositionUsd / price⌋ : ℤ) : ℚ) * price) = price) := by
    by_cases hf : 1 ≤ ⌊cfg.maxPositionUsd / price⌋
    · left
      rw [max_eq_right hf]
      rw [hk] at hfloor_mul ⊢
      exact round2_le_cents _ k hfloor_mul
    · right
      have h1 : max 1 ⌊cfg.maxPositionUsd / price⌋ = 1 := max_eq_left (by omega)
      refine ⟨h1, ?_⟩
      rw [h1]
      push_cast
      rw [one_mul, hj, round2_cents]
  have hunclamped : ∀ s0 : ℤ,
      ¬(cfg.maxPositionUsd > 0 ∧ (s0 : ℚ) * price > cfg.maxPositionUsd) →
      round2 ((s0 : ℚ) * price) ≤ cfg.maxPositionUsd := by
    intro s0 hnc
    push_neg at hnc
    have h2 := hnc hM
    rw [hk] at h2 ⊢
    exact round2_le_cents _ k h2
  unfold calc_shares
  rw [if_neg hple]
  by_cases hrs : cfg.useRiskSizing = true
  · simp only [hrs, if_true]
    by_cases hsd : price * (pct / 100) ≤ 0
    · rw [if_pos hsd]
      constructor
      · left
        simpa using le_of_lt hM
      · intro _
        simp [round2_zero]
    · rw [if_neg hsd]
      split_ifs with hcl
      · exact ⟨hclamped, fun _ => rfl⟩
      · constructor
        · left
          exact hunclamped _ hcl
        · intro _
          rfl
  · simp only [hrs, if_false]
    have hrs' : cfg.useRiskSizing = false := by
      cases h : cfg.useRiskSizing
      · rfl
      · exact absurd h hrs
    simp only [hrs', Bool.false_eq_true, if_false]
    split_ifs with hcl
    · exact ⟨hclamped, fun h => h.elim⟩
    · exact ⟨Or.inl (hunclamped _ hcl), fun h => h.elim⟩

/-- Witness for C7: fixed-notional sizing at price 10 under a 500-dollar
cap clamps the 1000-dollar notional to 50 shares worth exactly 500. -/
theorem C7_notional_cap_witness :
    0 < (10 : ℚ) ∧ 0 < cfgCap.maxPositionUsd ∧
    ((calc_shares cfgCap 10 2).position_value ≤ cfgCap.maxPositionUsd ∨
      ((calc_shares cfgCap 10 2).shares = 1 ∧
        (calc_shares cfgCap 10 2).position_value = 10)) :=
  ⟨by norm_num, by norm_num [cfgCap],
    (C7_notional_cap cfgCap 10 2 (by norm_num) (by norm_num [cfgCap])
      ⟨50000, by norm_num [cfgCap]⟩ ⟨1000, by norm_num⟩).1⟩

end QuestradeBot

namespace QuestradeBot

/-! ### Claim C3 -/

/-- Counterexample for C3 as stated: with risk sizing enabled and
`risk_stop_pct = 0` passed directly to the Sizing Engine, `calc_shares`
does NOT fall back to fixed-notional sizing — it returns zero shares with
note `invalid_stop_dist`, while the claimed fallback
(`floor(positionDollars / price)`, minimum 1) would have produced 100
shares at price 10 (as the otherwise-identical fixed-notional
configuration shows). -/
theorem C3_counterexample :
    (calc_shares cfgRisk 10 0).shares = 0 ∧
    (calc_shares cfgRisk 10 0).note = .invalidStopDist ∧
    ¬ 1 ≤ (calc_shares cfgRisk 10 0).shares ∧
    (calc_shares cfg0 10 0).shares = 100 := by
  decide

/-- C3 (amended): when risk sizing is enabled and the stop distance is
non-positive, `calc_shares` returns the failure tuple
`(0, 0, 0, invalid_stop_dist)` — it does not fall back to fixed-notional
sizing.  A request carrying `risk_stop_pct = 0` nevertheless produces a
positive share count, because the handler coerces the falsy `0` to the
default stop percentage 2.0 before sizing. -/
theorem C3_degenerate_stop_amended :
    (∀ cfg : Config, ∀ price pct : ℚ, cfg.useRiskSizing = true → 0 < price → pct ≤ 0 →
        calc_shares cfg price pct = ⟨0, 0, 0, .invalidStopDist⟩) ∧
    (∀ req : Request, req.risk_stop_pct = some 0 → effStopPct req = 2) ∧
    (∀ cfg : Config, ∀ price : ℚ, ∀ req : Request, 0 < price →
        req.risk_stop_pct = some 0 →
        1 ≤ (calc_shares cfg price (effStopPct req)).shares) := by
  refine ⟨?_, ?_, ?_⟩
  · intro cfg price pct hrs hp hpct
    have h100 : pct / 100 ≤ 0 := by linarith
    have hsd : price * (pct / 100) ≤ 0 := mul_nonpos_of_nonneg_of_nonpos hp.le h100
    unfold calc_shares
    rw [if_neg (not_le.mpr hp)]
    simp only [hrs, if_true]
    rw [if_pos hsd]
  · intro req h
    simp [effStopPct, h]
  · intro cfg price req hp h
    have h2 : effStopPct req = 2 := by simp [effStopPct, h]
    rw [h2]
    exact one_le_shares cfg price 2 hp (fun _ => by norm_num)

/-- Witness for C3 (amended): a negative stop percentage under risk sizing
yields the failure tuple, and the request with `risk_stop_pct = 0` is
coerced to 2.0 and sized to at least one share. -/
theorem C3_degenerate_stop_witness :
    calc_shares cfgRisk 10 (-1) = ⟨0, 0, 0, .invalidStopDist⟩ ∧
    effStopPct reqStop0 = 2 ∧
    1 ≤ (calc_shares cfgRisk 10 (effStopPct reqStop0)).shares :=
  ⟨C3_degenerate_stop_amended.1 cfgRisk 10 (-1) (by decide) (by norm_num) (by norm_num),
   C3_degenerate_stop_amended.2.1 reqStop0 (by decide),
   C3_degenerate_stop_amended.2.2 cfgRisk 10 reqStop0 (by norm_num) (by decide)⟩

end QuestradeBot

namespace QuestradeBot

/-! ### Claim C5 -/

/-- Counterexample for C5 as stated: a cooldown-blocked request is
answered with HTTP status 200 (body `status: "cooldown"`), not with a
429-equivalent status distinct from 200.  Here the global cooldown is 5
seconds and the request arrives 2 seconds after the last mark. -/
theorem C5_counterexample :
    ((tv cfgCd wCd req1 1002 "T" "D" "r" false).1).statusCode = 200 ∧
    (tv cfgCd wCd req1 1002 "T" "D" "r" false).1 =
      .cooldownResp "Global cooldown active (5s)." := by
  decide

/-- C5 (amended): a cooldown-blocked request is answered with the
dedicated `cooldown` response at HTTP status 200 (not 429; the body field
`status: "cooldown"` rather than the status code distinguishes it), and
mutates no state: the Position tab, the PnL tab and the cooldown
timestamps are unchanged — the only effect is one audit-log row. -/
theorem C5_cooldown_block_amended (cfg : Config) (w : World) (req : Request) (now : ℚ)
    (nowIso dateStr reqId : String) (bf : Bool) (s cd : String) (m : Mapped)
    (hs : normSymbol req = s) (h1 : ¬ s = "") (h2 : normSide req = "long")
    (h3 : mapEvent (normEvent req) = some m)
    (hcd : cooldown_block cfg w.cooldown s now = some cd) :
    (tv cfg w req now nowIso dateStr reqId bf).1 = .cooldownResp cd ∧
    ((tv cfg w req now nowIso dateStr reqId bf).1).statusCode = 200 ∧
    ((tv cfg w req now nowIso dateStr reqId bf).2).positions = w.positions ∧
    ((tv cfg w req now nowIso dateStr reqId bf).2).pnl = w.pnl ∧
    ((tv cfg w req now nowIso dateStr reqId bf).2).cooldown = w.cooldown ∧
    ((tv cfg w req now nowIso dateStr reqId bf).2).rawLog =
      append_log cfg.sheetsOn w.rawLog
        ⟨nowIso, s, normEvent req, mappedStr m, "long", req.price,
          none, none, none, none, "cooldown", cd, reqId⟩ := by
  rw [tv_cooldown_blocked cfg w req now nowIso dateStr reqId bf s cd m hs h1 h2 h3 hcd]
  exact ⟨rfl, rfl, rfl, rfl, rfl, rfl⟩

/-- Witness for C5 (amended) at the concrete blocked request of the
counterexample. -/
theorem C5_cooldown_block_witness :
    (tv cfgCd wCd req1 1002 "T" "D" "r" false).1 =
      .cooldownResp "Global cooldown active (5s)." ∧
    ((tv cfgCd wCd req1 1002 "T" "D" "r" false).2).positions = wCd.positions ∧
    ((tv cfgCd wCd req1 1002 "T" "D" "r" false).2).cooldown = wCd.cooldown := by
  have h := C5_cooldown_block_amended cfgCd wCd req1 1002 "T" "D" "r" false "ABC"
    "Global cooldown active (5s)." .ENTRY (by decide) (by decide) (by decide)
    (by decide) (by decide)
  exact ⟨h.1, h.2.2.1, h.2.2.2.2.1⟩

/-! ### Claim C4 -/

/-- Counterexample for C4 as stated: in live mode (dry run off) a missing
price is a hard 400 `missing_price` error — the engine does not query any
quote provider (there is no quote-fetch path in the handler at all),
contradicting the claimed policy that outside dry-run a missing price
triggers a quote fetch. -/
theorem C4_counterexample :
    cfgLive.dryRun = false ∧
    (tv cfgLive w0 reqNoPrice 1000 "T" "D" "r" false).1 = .badRequest "missing_price" ∧
    ((tv cfgLive w0 reqNoPrice 1000 "T" "D" "r" false).1).statusCode = 400 := by
  decide

/-- C4 (amended): when the inbound signal supplies a price, that price is
used (it is the price the dry-run entry is sized and recorded at); when
the price is absent, the request is rejected with a 400 `missing_price`
error in every mode — dry-run and live alike — and no state is written.
The Quote Provider is never consulted for a missing price. -/
theorem C4_price_policy_amended (cfg : Config) (w : World) (req : Request) (now : ℚ)
    (nowIso dateStr reqId : String) (bf : Bool) (s : String) (m : Mapped)
    (hs : normSymbol req = s) (h1 : ¬ s = "") (h2 : normSide req = "long")
    (h3 : mapEvent (normEvent req) = some m)
    (hcd : cooldown_block cfg w.cooldown s now = none)
    (hpass : (m = .ENTRY ∧ ¬ stateOf (pos_get cfg.sheetsOn w.positions s) = "LONG") ∨
             (m = .EXIT ∧ stateOf (pos_get cfg.sheetsOn w.positions s) = "LONG")) :
    (req.price = none →
      (tv cfg w req now nowIso dateStr reqId bf).1 = .badRequest "missing_price" ∧
      ((tv cfg w req now nowIso dateStr reqId bf).1).statusCode = 400 ∧
      ((tv cfg w req now nowIso dateStr reqId bf).2).positions = w.positions ∧
      ((tv cfg w req now nowIso dateStr reqId bf).2).pnl = w.pnl) ∧
    (∀ p : ℚ, req.price = some p → cfg.dryRun = true → m = .ENTRY →
      (tv cfg w req now nowIso dateStr reqId bf).1 =
        .dryRunEntry s p (calc_shares cfg p (effStopPct req)).shares
          (calc_shares cfg p (effStopPct req)).position_value
          (calc_stop_price p (effStopPct req))
          (calc_shares cfg p (effStopPct req)).risk_usd) := by
  constructor
  · intro hp
    rw [tv_missing_price cfg w req now nowIso dateStr reqId bf s m hs h1 h2 h3 hcd hpass hp]
    exact ⟨rfl, rfl, rfl, rfl⟩
  · intro p hp hdry hm
    subst hm
    rcases hpass with ⟨-, hst⟩ | ⟨hm', -⟩
    · rw [tv_dry_entry cfg w req now nowIso dateStr reqId bf s p hs h1 h2 h3 hcd hst hp hdry]
    · exact absurd hm' (by simp)

/-- Witness for C4 (amended): the live-mode missing-price rejection of the
counterexample, and the supplied price 10 flowing into the dry-run entry
response of the spec scenario. -/
theorem C4_price_policy_witness :
    ((tv cfgLive w0 reqNoPrice 1000 "T" "D" "r" false).1 = .badRequest "missing_price" ∧
      ((tv cfgLive w0 reqNoPrice 1000 "T" "D" "r" false).1).statusCode = 400) ∧
    (tv cfg0 w0 req1 1000 "T" "D" "r" false).1 =
      .dryRunEntry "ABC" 10 (calc_shares cfg0 10 (effStopPct req1)).shares
        (calc_shares cfg0 10 (effStopPct req1)).position_value
        (calc_stop_price 10 (effStopPct req1))
        (calc_shares cfg0 10 (effStopPct req1)).risk_usd := by
  have hA := C4_price_policy_amended cfgLive w0 reqNoPrice 1000 "T" "D" "r" false
    "ABC" .ENTRY (by decide) (by decide) (by decide) (by decide) (by decide)
    (Or.inl ⟨rfl, by decide⟩)
  have hB := C4_price_policy_amended cfg0 w0 req1 1000 "T" "D" "r" false
    "ABC" .ENTRY (by decide) (by decide) (by decide) (by decide) (by decide)
    (Or.inl ⟨rfl, by decide⟩)
  exact ⟨⟨(hA.1 (by decide)).1, (hA.1 (by decide)).2.1⟩,
    hB.2 10 (by decide) (by decide) rfl⟩

/-! ### Claim C2 -/

/-- C2: Atomicity on live-order failure — in live mode, when the broker
order placement raises (for ENTRY or EXIT), the handler answers
`order_failed` with HTTP status 500 and writes neither the Positions tab
nor the PnL (trade) tab, so the position state observed by later requests
is unchanged. -/
theorem C2_live_failure_atomicity (cfg : Config) (w : World) (req : Request) (now : ℚ)
    (nowIso dateStr reqId : String) (s : String) (p : ℚ) (m : Mapped)
    (hs : normSymbol req = s) (h1 : ¬ s = "") (h2 : normSide req = "long")
    (h3 : mapEvent (normEvent req) = some m)
    (hcd : cooldown_block cfg w.cooldown s now = none)
    (hpass : (m = .ENTRY ∧ ¬ stateOf (pos_get cfg.sheetsOn w.positions s) = "LONG") ∨
             (m = .EXIT ∧ stateOf (pos_get cfg.sheetsOn w.positions s) = "LONG"))
    (hp : req.price = some p)
    (hlive : cfg.dryRun = false) :
    (tv cfg w req now nowIso dateStr reqId true).1 = .orderFailed "order_failed" ∧
    ((tv cfg w req now nowIso dateStr reqId true).1).statusCode = 500 ∧
    ((tv cfg w req now nowIso dateStr reqId true).2).positions = w.positions ∧
    ((tv cfg w req now nowIso dateStr reqId true).2).pnl = w.pnl := by
  rcases hpass with ⟨hm, hst⟩ | ⟨hm, hst⟩ <;> subst hm
  · rw [tv_live_entry_fail cfg w req now nowIso dateStr reqId s p hs h1 h2 h3 hcd hst hp hlive]
    exact ⟨rfl, rfl, rfl, rfl⟩
  · rw [tv_live_exit_fail cfg w req now nowIso dateStr reqId s p hs h1 h2 h3 hcd hst hp hlive]
    exact ⟨rfl, rfl, rfl, rfl⟩

/-- Witness for C2: a failing live ENTRY from an empty world and a failing
live EXIT from an open LONG position both answer 500 and leave the
Positions and PnL tabs untouched. -/
theorem C2_live_failure_witness :
    ((tv cfgLive w0 req1 1000 "T" "D" "r" true).1 = .orderFailed "order_failed" ∧
      ((tv cfgLive w0 req1 1000 "T" "D" "r" true).2).positions = w0.positions) ∧
    ((tv cfgLive wLong reqExit 1000 "T" "D" "r" true).1 = .orderFailed "order_failed" ∧
      ((tv cfgLive wLong reqExit 1000 "T" "D" "r" true).2).pnl = wLong.pnl) := by
  have hA := C2_live_failure_atomicity cfgLive w0 req1 1000 "T" "D" "r" "ABC" 10 .ENTRY
    (by decide) (by decide) (by decide) (by decide) (by decide)
    (Or.inl ⟨rfl, by decide⟩) (by decide) (by decide)
  have hB := C2_live_failure_atomicity cfgLive wLong reqExit 1000 "T" "D" "r" "ABC" (21/2) .EXIT
    (by decide) (by decide) (by decide) (by decide) (by decide)
    (Or.inr ⟨rfl, by decide⟩) (by decide) (by decide)
  exact ⟨⟨hA.1, hA.2.2.1⟩, ⟨hB.1, hB.2.2.2⟩⟩

end QuestradeBot

namespace QuestradeBot

/-! ### Claim C1 -/

/-- C1: Idempotency of the position state machine.  (i) For any symbol
whose ledger state reads LONG, an ENTRY signal is ignored — a 200
response with `ignored: true` and reason "Already in position (LONG)" —
and neither the Positions tab, the PnL tab nor the cooldown timestamps
change.  (ii) Dually, for any symbol whose state is not LONG, an EXIT
signal is ignored with reason "No open position to exit" and no state
change.  (iii) Hence two consecutive ENTRY signals from FLAT (no existing
row) in dry-run mode with cooldowns off produce exactly one LONG position
row for the symbol and exactly one ignored response: the first request
answers with a dry-run fill and appends the single LONG row, the second
is ignored and leaves the Positions tab unchanged. -/
theorem C1_idempotent_state_machine :
    (∀ (cfg : Config) (w : World) (req : Request) (now : ℚ)
        (nowIso dateStr reqId : String) (bf : Bool) (s : String),
      normSymbol req = s → ¬ s = "" → normSide req = "long" →
      mapEvent (normEvent req) = some .ENTRY →
      cooldown_block cfg w.cooldown s now = none →
      stateOf (pos_get cfg.sheetsOn w.positions s) = "LONG" →
      (tv cfg w req now nowIso dateStr reqId bf).1 =
          .ignoredResp "Already in position (LONG)" ∧
      ((tv cfg w req now nowIso dateStr reqId bf).1).statusCode = 200 ∧
      ((tv cfg w req now nowIso dateStr reqId bf).2).positions = w.positions ∧
      ((tv cfg w req now nowIso dateStr reqId bf).2).pnl = w.pnl ∧
      ((tv cfg w req now nowIso dateStr reqId bf).2).cooldown = w.cooldown) ∧
    (∀ (cfg : Config) (w : World) (req : Request) (now : ℚ)
        (nowIso dateStr reqId : String) (bf : Bool) (s : String),
      normSymbol req = s → ¬ s = "" → normSide req = "long" →
      mapEvent (normEvent req) = some .EXIT →
      cooldown_block cfg w.cooldown s now = none →
      ¬ stateOf (pos_get cfg.sheetsOn w.positions s) = "LONG" →
      (tv cfg w req now nowIso dateStr reqId bf).1 =
          .ignoredResp "No open position to exit" ∧
      ((tv cfg w req now nowIso dateStr reqId bf).1).statusCode = 200 ∧
      ((tv cfg w req now nowIso dateStr reqId bf).2).positions = w.positions ∧
      ((tv cfg w req now nowIso dateStr reqId bf).2).pnl = w.pnl ∧
      ((tv cfg w req now nowIso dateStr reqId bf).2).cooldown = w.cooldown) ∧
    (∀ (cfg : Config) (w : World) (req₁ req₂ : Request) (now₁ now₂ : ℚ)
        (iso₁ iso₂ d₁ d₂ rid₁ rid₂ : String) (bf₁ bf₂ : Bool) (s : String) (p₁ p₂ : ℚ)
        (resp₁ : TvResponse) (w₁ : World),
      cfg.sheetsOn = true → cfg.dryRun = true →
      cfg.globalCooldownSec ≤ 0 → cfg.symbolCooldownSec ≤ 0 →
      upperStr s = s → trimStr s = s → ¬ s = "" →
      normSymbol req₁ = s → normSide req₁ = "long" →
      mapEvent (normEvent req₁) = some .ENTRY → req₁.price = some p₁ →
      normSymbol req₂ = s → normSide req₂ = "long" →
      mapEvent (normEvent req₂) = some .ENTRY → req₂.price = some p₂ →
      w.positions.find? (fun r => rowMatch r s) = none →
      tv cfg w req₁ now₁ iso₁ d₁ rid₁ bf₁ = (resp₁, w₁) →
      resp₁ = .dryRunEntry s p₁ (calc_shares cfg p₁ (effStopPct req₁)).shares
          (calc_shares cfg p₁ (effStopPct req₁)).position_value
          (calc_stop_price p₁ (effStopPct req₁))
          (calc_shares cfg p₁ (effStopPct req₁)).risk_usd ∧
      w₁.positions = w.positions ++
          [⟨upperStr s, "LONG", iso₁, some p₁,
            some (calc_shares cfg p₁ (effStopPct req₁)).shares,
            some (calc_shares cfg p₁ (effStopPct req₁)).position_value,
            some (calc_stop_price p₁ (effStopPct req₁)),
            some (calc_shares cfg p₁ (effStopPct req₁)).risk_usd,
            "ENTRY", iso₁, mkTradeId s now₁,
            noteStr (calc_shares cfg p₁ (effStopPct req₁)).note⟩] ∧
      (w₁.positions.filter (fun r => rowMatch r s)).map PositionRow.state = ["LONG"] ∧
      (tv cfg w₁ req₂ now₂ iso₂ d₂ rid₂ bf₂).1 =
          .ignoredResp "Already in position (LONG)" ∧
      ((tv cfg w₁ req₂ now₂ iso₂ d₂ rid₂ bf₂).2).positions = w₁.positions) := by
  refine ⟨?_, ?_, ?_⟩
  · intro cfg w req now nowIso dateStr reqId bf s hs h1 h2 h3 hcd hst
    rw [tv_entry_ignored cfg w req now nowIso dateStr reqId bf s hs h1 h2 h3 hcd hst]
    exact ⟨rfl, rfl, rfl, rfl, rfl⟩
  · intro cfg w req now nowIso dateStr reqId bf s hs h1 h2 h3 hcd hst
    rw [tv_exit_ignored cfg w req now nowIso dateStr reqId bf s hs h1 h2 h3 hcd hst]
    exact ⟨rfl, rfl, rfl, rfl, rfl⟩
  · intro cfg w req₁ req₂ now₁ now₂ iso₁ iso₂ d₁ d₂ rid₁ rid₂ bf₁ bf₂ s p₁ p₂ resp₁ w₁
    intro hsh hdry hg hsy hU hT h1 hs₁ hside₁ hev₁ hp₁ hs₂ hside₂ hev₂ hp₂ h0 htv1
    have hcd₁ : cooldown_block cfg w.cooldown s now₁ = none :=
      cooldown_block_of_nonpos cfg w.cooldown s now₁ hg hsy
    have hst₁ : ¬ stateOf (pos_get cfg.sheetsOn w.positions s) = "LONG" := by
      rw [hsh]
      simp [pos_get, h0, stateOf]
    rw [tv_dry_entry cfg w req₁ now₁ iso₁ d₁ rid₁ bf₁ s p₁ hs₁ h1 hside₁ hev₁ hcd₁
      hst₁ hp₁ hdry] at htv1
    have hresp : resp₁ = .dryRunEntry s p₁ (calc_shares cfg p₁ (effStopPct req₁)).shares
        (calc_shares cfg p₁ (effStopPct req₁)).position_value
        (calc_stop_price p₁ (effStopPct req₁))
        (calc_shares cfg p₁ (effStopPct req₁)).risk_usd := by
      have := congrArg Prod.fst htv1
      simpa using this.symm
    have hw₁ : w₁ = { w with
        cooldown := cooldown_mark w.cooldown s now₁,
        positions := pos_set cfg.sheetsOn w.positions s "LONG" iso₁ (some p₁)
          (calc_shares cfg p₁ (effStopPct req₁)).shares
          (calc_shares cfg p₁ (effStopPct req₁)).position_value
          (calc_stop_price p₁ (effStopPct req₁))
          (calc_shares cfg p₁ (effStopPct req₁)).risk_usd
          "ENTRY" (mkTradeId s now₁) (noteStr (calc_shares cfg p₁ (effStopPct req₁)).note) iso₁,
        rawLog := append_log cfg.sheetsOn w.rawLog
          ⟨iso₁, s, normEvent req₁, "ENTRY", "long", some p₁,
            some (calc_shares cfg p₁ (effStopPct req₁)).shares,
            some (calc_shares cfg p₁ (effStopPct req₁)).position_value,
            some (calc_stop_price p₁ (effStopPct req₁)),
            some (calc_shares cfg p₁ (effStopPct req₁)).risk_usd,
            "dry_run", noteStr (calc_shares cfg p₁ (effStopPct req₁)).note, rid₁⟩ } := by
      have := congrArg Prod.snd htv1
      simpa using this.symm
    have hmatch : rowMatch
        (⟨upperStr s, "LONG", iso₁, some p₁,
          some (calc_shares cfg p₁ (effStopPct req₁)).shares,
          some (calc_shares cfg p₁ (effStopPct req₁)).position_value,
          some (calc_stop_price p₁ (effStopPct req₁)),
          some (calc_shares cfg p₁ (effStopPct req₁)).risk_usd,
          "ENTRY", iso₁, mkTradeId s now₁,
          noteStr (calc_shares cfg p₁ (effStopPct req₁)).note⟩ : PositionRow) s = true := by
      apply rowMatch_canon _ _ rfl hU hT
    have hpos₁ : w₁.positions = w.positions ++
        [⟨upperStr s, "LONG", iso₁, some p₁,
          some (calc_shares cfg p₁ (effStopPct req₁)).shares,
          some (calc_shares cfg p₁ (effStopPct req₁)).position_value,
          some (calc_stop_price p₁ (effStopPct req₁)),
          some (calc_shares cfg p₁ (effStopPct req₁)).risk_usd,
          "ENTRY", iso₁, mkTradeId s now₁,
          noteStr (calc_shares cfg p₁ (effStopPct req₁)).note⟩] := by
      rw [hw₁]
      simp only [pos_set, hsh, if_true]
      exact writeRow_not_found w.positions s _ h0
    have hfind₂ : pos_get cfg.sheetsOn w₁.positions s =
        some ⟨upperStr s, "LONG", iso₁, some p₁,
          some (calc_shares cfg p₁ (effStopPct req₁)).shares,
          some (calc_shares cfg p₁ (effStopPct req₁)).position_value,
          some (calc_stop_price p₁ (effStopPct req₁)),
          some (calc_shares cfg p₁ (effStopPct req₁)).risk_usd,
          "ENTRY", iso₁, mkTradeId s now₁,
          noteStr (calc_shares cfg p₁ (effStopPct req₁)).note⟩ := by
      rw [hsh, pos_get, if_pos rfl, hpos₁, find?_append_none _ _ _ h0]
      simp [List.find?, hmatch]
    have hst₂ : stateOf (pos_get cfg.sheetsOn w₁.positions s) = "LONG" := by
      rw [hfind₂]
      simp [stateOf]
    have hcd₂ : cooldown_block cfg w₁.cooldown s now₂ = none :=
      cooldown_block_of_nonpos cfg w₁.cooldown s now₂ hg hsy
    have htv2 := tv_entry_ignored cfg w₁ req₂ now₂ iso₂ d₂ rid₂ bf₂ s hs₂ h1 hside₂
      hev₂ hcd₂ hst₂
    refine ⟨hresp, hpos₁, ?_, ?_, ?_⟩
    · rw [hpos₁, List.filter_append, filter_eq_nil_of_find?_none w.positions s h0]
      simp [hmatch]
    · rw [htv2]
    · rw [htv2]
  

/-- Witness for C1: from the empty world, the spec scenario signal opens
exactly one LONG row; repeating it is ignored; an EXIT from FLAT is
ignored; an ENTRY against an existing LONG row is ignored. -/
theorem C1_idempotent_witness :
    (tv cfg0 wLong req1 1000 "T" "D" "r" false).1 =
        .ignoredResp "Already in position (LONG)" ∧
    (tv cfg0 w0 reqExit 1000 "T" "D" "r" false).1 =
        .ignoredResp "No open position to exit" ∧
    (tv cfg0 ((tv cfg0 w0 req1 1000 "T1" "D" "r1" false).2) req1 1200 "T2" "D" "r2"
        false).1 = .ignoredResp "Already in position (LONG)" ∧
    ((((tv cfg0 w0 req1 1000 "T1" "D" "r1" false).2).positions.filter
        (fun r => rowMatch r "ABC")).map PositionRow.state) = ["LONG"] := by
  have hA := (C1_idempotent_state_machine.1) cfg0 wLong req1 1000 "T" "D" "r" false "ABC"
    (by decide) (by decide) (by decide) (by decide) (by decide) (by decide)
  have hB := (C1_idempotent_state_machine.2.1) cfg0 w0 reqExit 1000 "T" "D" "r" false "ABC"
    (by decide) (by decide) (by decide) (by decide) (by decide) (by decide)
  have hC := (C1_idempotent_state_machine.2.2) cfg0 w0 req1 req1 1000 1200 "T1" "T2"
    "D" "D" "r1" "r2" false false "ABC" 10 10
    ((tv cfg0 w0 req1 1000 "T1" "D" "r1" false).1)
    ((tv cfg0 w0 req1 1000 "T1" "D" "r1" false).2)
    (by decide) (by decide) (by decide) (by decide) (by decide) (by decide) (by decide)
    (by decide) (by decide) (by decide) (by decide) (by decide) (by decide) (by decide)
    (by decide) (by decide) rfl
  exact ⟨hA.1, hB.1, hC.2.2.2.1, hC.2.2.1⟩

end QuestradeBot

namespace QuestradeBot

/-! ### Claim C8 -/

lemma tv_accept_marks (cfg : Config) (w : World) (req : Request) (now : ℚ)
    (nowIso dateStr reqId : String) (bf : Bool) (s : String) (m : Mapped) (p : ℚ)
    (hs : normSymbol req = s) (h1 : ¬ s = "") (h2 : normSide req = "long")
    (h3 : mapEvent (normEvent req) = some m)
    (hcd : cooldown_block cfg w.cooldown s now = none)
    (hpass : (m = .ENTRY ∧ ¬ stateOf (pos_get cfg.sheetsOn w.positions s) = "LONG") ∨
             (m = .EXIT ∧ stateOf (pos_get cfg.sheetsOn w.positions s) = "LONG"))
    (hp : req.price = some p) :
    ((tv cfg w req now nowIso dateStr reqId bf).2).cooldown =
      cooldown_mark w.cooldown s now := by
  rcases hpass with ⟨hm, hst⟩ | ⟨hm, hst⟩ <;> subst hm
  · simp only [tv, ite_pos_get, hs, h2, h3, hcd, hp, if_neg h1]
    simp [hst]
    split_ifs <;> simp
  · simp only [tv, ite_pos_get, hs, h2, h3, hcd, hp, if_neg h1]
    simp [hst]
    cases hq : pos_get cfg.sheetsOn w.positions s with
    | none =>
      rw [hq] at hst
      simp [stateOf] at hst
    | some c =>
      simp [hq]
      split_ifs <;> simp

/-- C8: Cooldown marking point.  The cooldown timestamps are updated only
for signals accepted for processing: they are unchanged on input
rejections (missing symbol, unsupported side, unsupported event, missing
price), on cooldown blocks, and on idempotent ignores; and whenever a
signal is accepted (it passes normalization, the cooldown check, the
state-machine check and carries a price), both the global and the
per-symbol timestamp are set to the current time `now` — in every mode
(dry-run or live, entry or exit, broker success or failure). -/
theorem C8_cooldown_marking :
    (∀ (cfg : Config) (w : World) (req : Request) (now : ℚ)
        (nowIso dateStr reqId : String) (bf : Bool),
      normSymbol req = "" →
      ((tv cfg w req now nowIso dateStr reqId bf).2).cooldown = w.cooldown) ∧
    (∀ (cfg : Config) (w : World) (req : Request) (now : ℚ)
        (nowIso dateStr reqId : String) (bf : Bool) (s : String),
      normSymbol req = s → ¬ s = "" → ¬ normSide req = "long" →
      ((tv cfg w req now nowIso dateStr reqId bf).2).cooldown = w.cooldown) ∧
    (∀ (cfg : Config) (w : World) (req : Request) (now : ℚ)
        (nowIso dateStr reqId : String) (bf : Bool) (s : String),
      normSymbol req = s → ¬ s = "" → normSide req = "long" →
      mapEvent (normEvent req) = none →
      ((tv cfg w req now nowIso dateStr reqId bf).2).cooldown = w.cooldown) ∧
    (∀ (cfg : Config) (w : World) (req : Request) (now : ℚ)
        (nowIso dateStr reqId : String) (bf : Bool) (s cd : String) (m : Mapped),
      normSymbol req = s → ¬ s = "" → normSide req = "long" →
      mapEvent (normEvent req) = some m →
      cooldown_block cfg w.cooldown s now = some cd →
      ((tv cfg w req now nowIso dateStr reqId bf).2).cooldown = w.cooldown) ∧
    (∀ (cfg : Config) (w : World) (req : Request) (now : ℚ)
        (nowIso dateStr reqId : String) (bf : Bool) (s : String),
      normSymbol req = s → ¬ s = "" → normSide req = "long" →
      mapEvent (normEvent req) = some .ENTRY →
      cooldown_block cfg w.cooldown s now = none →
      stateOf (pos_get cfg.sheetsOn w.positions s) = "LONG" →
      ((tv cfg w req now nowIso dateStr reqId bf).2).cooldown = w.cooldown) ∧
    (∀ (cfg : Config) (w : World) (req : Request) (now : ℚ)
        (nowIso dateStr reqId : String) (bf : Bool) (s : String),
      normSymbol req = s → ¬ s = "" → normSide req = "long" →
      mapEvent (normEvent req) = some .EXIT →
      cooldown_block cfg w.cooldown s now = none →
      ¬ stateOf (pos_get cfg.sheetsOn w.positions s) = "LONG" →
      ((tv cfg w req now nowIso dateStr reqId bf).2).cooldown = w.cooldown) ∧
    (∀ (cfg : Config) (w : World) (req : Request) (now : ℚ)
        (nowIso dateStr reqId : String) (bf : Bool) (s : String) (m : Mapped),
      normSymbol req = s → ¬ s = "" → normSide req = "long" →
      mapEvent (normEvent req) = some m →
      cooldown_block cfg w.cooldown s now = none →
      ((m = .ENTRY ∧ ¬ stateOf (pos_get cfg.sheetsOn w.positions s) = "LONG") ∨
       (m = .EXIT ∧ stateOf (pos_get cfg.sheetsOn w.positions s) = "LONG")) →
      req.price = none →
      ((tv cfg w req now nowIso dateStr reqId bf).2).cooldown = w.cooldown) ∧
    (∀ (cfg : Config) (w : World) (req : Request) (now : ℚ)
        (nowIso dateStr reqId : String) (bf : Bool) (s : String) (m : Mapped) (p : ℚ),
      normSymbol req = s → ¬ s = "" → normSide req = "long" →
      mapEvent (normEvent req) = some m →
      cooldown_block cfg w.cooldown s now = none →
      ((m = .ENTRY ∧ ¬ stateOf (pos_get cfg.sheetsOn w.positions s) = "LONG") ∨
       (m = .EXIT ∧ stateOf (pos_get cfg.sheetsOn w.positions s) = "LONG")) →
      req.price = some p →
      ((tv cfg w req now nowIso dateStr reqId bf).2).cooldown =
          cooldown_mark w.cooldown s now ∧
      (((tv cfg w req now nowIso dateStr reqId bf).2).cooldown).lastGlobalTs = now ∧
      symbolTs ((tv cfg w req now nowIso dateStr reqId bf).2).cooldown s = now) := by
  refine ⟨?_, ?_, ?_, ?_, ?_, ?_, ?_, ?_⟩
  · intro cfg w req now nowIso dateStr reqId bf hs
    rw [tv_reject_symbol cfg w req now nowIso dateStr reqId bf hs]
  · intro cfg w req now nowIso dateStr reqId bf s hs h1 h2
    rw [tv_reject_side cfg w req now nowIso dateStr reqId bf s hs h1 h2]
  · intro cfg w req now nowIso dateStr reqId bf s hs h1 h2 h3
    rw [tv_reject_event cfg w req now nowIso dateStr reqId bf s hs h1 h2 h3]
  · intro cfg w req now nowIso dateStr reqId bf s cd m hs h1 h2 h3 hcd
    rw [tv_cooldown_blocked cfg w req now nowIso dateStr reqId bf s cd m hs h1 h2 h3 hcd]
  · intro cfg w req now nowIso dateStr reqId bf s hs h1 h2 h3 hcd hst
    rw [tv_entry_ignored cfg w req now nowIso dateStr reqId bf s hs h1 h2 h3 hcd hst]
  · intro cfg w req now nowIso dateStr reqId bf s hs h1 h2 h3 hcd hst
    rw [tv_exit_ignored cfg w req now nowIso dateStr reqId bf s hs h1 h2 h3 hcd hst]
  · intro cfg w req now nowIso dateStr reqId bf s m hs h1 h2 h3 hcd hpass hp
    rw [tv_missing_price cfg w req now nowIso dateStr reqId bf s m hs h1 h2 h3 hcd hpass hp]
  · intro cfg w req now nowIso dateStr reqId bf s m p hs h1 h2 h3 hcd hpass hp
    have hmk := tv_accept_marks cfg w req now nowIso dateStr reqId bf s m p
      hs h1 h2 h3 hcd hpass hp
    refine ⟨hmk, ?_, ?_⟩
    · rw [hmk, lastGlobal_mark]
    · rw [hmk, symbolTs_mark_self]

/-- Witness for C8: a missing-symbol reject, a cooldown block and an
idempotent ignore leave the timestamps alone; the accepted spec-scenario
entry sets both timestamps to the request time. -/
theorem C8_cooldown_marking_witness :
    ((tv cfg0 w0 reqNoSym 1000 "T" "D" "r" false).2).cooldown = w0.cooldown ∧
    ((tv cfgCd wCd req1 1002 "T" "D" "r" false).2).cooldown = wCd.cooldown ∧
    ((tv cfg0 wLong req1 1000 "T" "D" "r" false).2).cooldown = wLong.cooldown ∧
    ((tv cfg0 w0 req1 1000 "T" "D" "r" false).2).cooldown =
        cooldown_mark w0.cooldown "ABC" 1000 ∧
    symbolTs ((tv cfg0 w0 req1 1000 "T" "D" "r" false).2).cooldown "ABC" = 1000 := by
  have hA := C8_cooldown_marking.1 cfg0 w0 reqNoSym 1000 "T" "D" "r" false (by decide)
  have hB := (C8_cooldown_marking.2.2.2.1) cfgCd wCd req1 1002 "T" "D" "r" false "ABC"
    "Global cooldown active (5s)." .ENTRY (by decide) (by decide) (by decide)
    (by decide) (by decide)
  have hC := (C8_cooldown_marking.2.2.2.2.1) cfg0 wLong req1 1000 "T" "D" "r" false "ABC"
    (by decide) (by decide) (by decide) (by decide) (by decide) (by decide)
  have hD := (C8_cooldown_marking.2.2.2.2.2.2.2) cfg0 w0 req1 1000 "T" "D" "r" false "ABC"
    .ENTRY 10 (by decide) (by decide) (by decide) (by decide) (by decide)
    (Or.inl ⟨rfl, by decide⟩) (by decide)
  exact ⟨hA, hB, hC, hD.1, hD.2.2⟩

end QuestradeBot

namespace QuestradeBot

/-! ### Claim C9 -/

/-- Counterexample for C9 as stated: after a dry-run EXIT closes the LONG
position on ABC (entered with trade id "T1"), the persisted FLAT row
still carries trade id "T1" — the trade id is preserved, not cleared,
contradicting the claim that all fields other than symbol and state
(including the trade id) are cleared. -/
theorem C9_counterexample :
    (((tv cfg0 wLong reqExit 1000 "T2" "D" "r" false).2).positions.map
        PositionRow.trade_id) = ["T1"] ∧
    (((tv cfg0 wLong reqExit 1000 "T2" "D" "r" false).2).positions.map
        PositionRow.state) = ["FLAT"] ∧
    ¬ ("T1" = "") := by
  decide

/-- C9 (amended): on EXIT, `pos_flat` overwrites the matched row with a
FLAT row in which the entry fields — entry time, entry price, shares,
position value, stop price and risk — are all cleared (empty cells),
while the trade id is carried over from the existing row (and last event,
last update and notes are freshly set).  Stated for a canonical
(upper-case, trimmed) symbol. -/
theorem C9_exit_clears_amended (ps : List PositionRow) (s ev nts iso : String)
    (e : PositionRow)
    (hU : upperStr s = s) (hT : trimStr s = s)
    (hfind : pos_get true ps s = some e) :
    pos_flat true ps s ev nts iso = writeRow ps s
      ⟨upperStr s, "FLAT", "", none, none, none, none, none, ev, iso, e.trade_id, nts⟩ ∧
    pos_get true (pos_flat true ps s ev nts iso) s =
      some ⟨upperStr s, "FLAT", "", none, none, none, none, none, ev, iso,
        e.trade_id, nts⟩ := by
  have h1 : pos_flat true ps s ev nts iso = writeRow ps s
      ⟨upperStr s, "FLAT", "", none, none, none, none, none, ev, iso,
        e.trade_id, nts⟩ := by
    simp [pos_flat, hfind]
  refine ⟨h1, ?_⟩
  rw [h1, pos_get, if_pos rfl]
  exact find?_writeRow ps s _ (rowMatch_canon _ _ rfl hU hT)

/-- Witness for C9 (amended) at the concrete LONG row for ABC. -/
theorem C9_exit_clears_witness :
    pos_get true (pos_flat true [rowLong] "ABC" "EXIT" "closed in dry_run" "T2") "ABC" =
      some ⟨upperStr "ABC", "FLAT", "", none, none, none, none, none, "EXIT", "T2",
        rowLong.trade_id, "closed in dry_run"⟩ :=
  (C9_exit_clears_amended [rowLong] "ABC" "EXIT" "closed in dry_run" "T2" rowLong
    (by decide) (by decide) (by decide)).2

/-! ### Claim C10 -/

lemma tv_sheets_off_frame (cfg : Config) (w : World) (req : Request) (now : ℚ)
    (nowIso dateStr reqId : String) (bf : Bool)
    (hoff : cfg.sheetsOn = false) :
    ((tv cfg w req now nowIso dateStr reqId bf).2).positions = w.positions ∧
    ((tv cfg w req now nowIso dateStr reqId bf).2).pnl = w.pnl ∧
    ((tv cfg w req now nowIso dateStr reqId bf).2).rawLog = w.rawLog := by
  refine ⟨?_, ?_, ?_⟩ <;>
  · simp only [tv, hoff, append_log_off, pos_set_off, pos_flat_off, append_pnl_row_off,
      pos_get_off, Bool.false_eq_true, if_false, stateOf]
    repeat' split
    all_goals simp

/-- C10 (implicit): with the ledger disabled every request observes FLAT,
so the idempotency guarantee is vacuous.  (i) Position reads return
nothing and no tab is ever written (in particular no Trade/PnL record is
ever produced).  (ii) Every EXIT is ignored with "No open position to
exit".  (iii) Every ENTRY proceeds to sizing and execution.  (iv) Two
consecutive ENTRY signals for the same symbol in dry-run mode each
produce a dry-run fill — there is no duplicate-entry protection — and the
PnL tab stays empty. -/
theorem C10_ledger_disabled :
    (∀ (cfg : Config) (w : World) (req : Request) (now : ℚ)
        (nowIso dateStr reqId : String) (bf : Bool),
      cfg.sheetsOn = false →
      pos_get cfg.sheetsOn w.positions (normSymbol req) = none ∧
      ((tv cfg w req now nowIso dateStr reqId bf).2).positions = w.positions ∧
      ((tv cfg w req now nowIso dateStr reqId bf).2).pnl = w.pnl) ∧
    (∀ (cfg : Config) (w : World) (req : Request) (now : ℚ)
        (nowIso dateStr reqId : String) (bf : Bool) (s : String),
      cfg.sheetsOn = false →
      normSymbol req = s → ¬ s = "" → normSide req = "long" →
      mapEvent (normEvent req) = some .EXIT →
      cooldown_block cfg w.cooldown s now = none →
      (tv cfg w req now nowIso dateStr reqId bf).1 =
        .ignoredResp "No open position to exit") ∧
    (∀ (cfg : Config) (w : World) (req : Request) (now : ℚ)
        (nowIso dateStr reqId : String) (bf : Bool) (s : String) (p : ℚ),
      cfg.sheetsOn = false →
      normSymbol req = s → ¬ s = "" → normSide req = "long" →
      mapEvent (normEvent req) = some .ENTRY →
      cooldown_block cfg w.cooldown s now = none →
      req.price = some p →
      (cfg.dryRun = true →
        (tv cfg w req now nowIso dateStr reqId bf).1 =
          .dryRunEntry s p (calc_shares cfg p (effStopPct req)).shares
            (calc_shares cfg p (effStopPct req)).position_value
            (calc_stop_price p (effStopPct req))
            (calc_shares cfg p (effStopPct req)).risk_usd) ∧
      (cfg.dryRun = false →
        (tv cfg w req now nowIso dateStr reqId bf).1 =
          (if bf then .orderFailed "order_failed" else .liveEntry s))) ∧
    (∀ (cfg : Config) (w : World) (req₁ req₂ : Request) (now₁ now₂ : ℚ)
        (iso₁ iso₂ d₁ d₂ rid₁ rid₂ : String) (bf₁ bf₂ : Bool) (s : String) (p₁ p₂ : ℚ)
        (resp₁ : TvResponse) (w₁ : World),
      cfg.sheetsOn = false → cfg.dryRun = true →
      cfg.globalCooldownSec ≤ 0 → cfg.symbolCooldownSec ≤ 0 →
      normSymbol req₁ = s → ¬ s = "" → normSide req₁ = "long" →
      mapEvent (normEvent req₁) = some .ENTRY → req₁.price = some p₁ →
      normSymbol req₂ = s → normSide req₂ = "long" →
      mapEvent (normEvent req₂) = some .ENTRY → req₂.price = some p₂ →
      tv cfg w req₁ now₁ iso₁ d₁ rid₁ bf₁ = (resp₁, w₁) →
      resp₁ = .dryRunEntry s p₁ (calc_shares cfg p₁ (effStopPct req₁)).shares
          (calc_shares cfg p₁ (effStopPct req₁)).position_value
          (calc_stop_price p₁ (effStopPct req₁))
          (calc_shares cfg p₁ (effStopPct req₁)).risk_usd ∧
      (tv cfg w₁ req₂ now₂ iso₂ d₂ rid₂ bf₂).1 =
        .dryRunEntry s p₂ (calc_shares cfg p₂ (effStopPct req₂)).shares
          (calc_shares cfg p₂ (effStopPct req₂)).position_value
          (calc_stop_price p₂ (effStopPct req₂))
          (calc_shares cfg p₂ (effStopPct req₂)).risk_usd ∧
      ((tv cfg w₁ req₂ now₂ iso₂ d₂ rid₂ bf₂).2).pnl = w.pnl ∧
      ((tv cfg w₁ req₂ now₂ iso₂ d₂ rid₂ bf₂).2).positions = w.positions) := by
  refine ⟨?_, ?_, ?_, ?_⟩
  · intro cfg w req now nowIso dateStr reqId bf hoff
    refine ⟨by rw [hoff]; exact pos_get_off _ _, ?_, ?_⟩
    · exact (tv_sheets_off_frame cfg w req now nowIso dateStr reqId bf hoff).1
    · exact (tv_sheets_off_frame cfg w req now nowIso dateStr reqId bf hoff).2.1
  · intro cfg w req now nowIso dateStr reqId bf s hoff hs h1 h2 h3 hcd
    have hst : ¬ stateOf (pos_get cfg.sheetsOn w.positions s) = "LONG" := by
      rw [hoff, stateOf_off]
      simp
    rw [tv_exit_ignored cfg w req now nowIso dateStr reqId bf s hs h1 h2 h3 hcd hst]
  · intro cfg w req now nowIso dateStr reqId bf s p hoff hs h1 h2 h3 hcd hp
    have hst : ¬ stateOf (pos_get cfg.sheetsOn w.positions s) = "LONG" := by
      rw [hoff, stateOf_off]
      simp
    constructor
    · intro hdry
      rw [tv_dry_entry cfg w req now nowIso dateStr reqId bf s p hs h1 h2 h3 hcd hst hp hdry]
    · intro hlive
      cases bf with
      | true =>
        rw [tv_live_entry_fail cfg w req now nowIso dateStr reqId s p hs h1 h2 h3 hcd
          hst hp hlive]
        simp
      | false =>
        rw [tv_live_entry_ok cfg w req now nowIso dateStr reqId s p hs h1 h2 h3 hcd
          hst hp hlive]
        simp
  · intro cfg w req₁ req₂ now₁ now₂ iso₁ iso₂ d₁ d₂ rid₁ rid₂ bf₁ bf₂ s p₁ p₂ resp₁ w₁
    intro hoff hdry hg hsy hs₁ h1 hside₁ hev₁ hp₁ hs₂ hside₂ hev₂ hp₂ htv1
    have hcd₁ : cooldown_block cfg w.cooldown s now₁ = none :=
      cooldown_block_of_nonpos cfg w.cooldown s now₁ hg hsy
    have hst : ∀ ps : List PositionRow, ¬ stateOf (pos_get cfg.sheetsOn ps s) = "LONG" := by
      intro ps
      rw [hoff, stateOf_off]
      simp
    rw [tv_dry_entry cfg w req₁ now₁ iso₁ d₁ rid₁ bf₁ s p₁ hs₁ h1 hside₁ hev₁ hcd₁
      (hst w.positions) hp₁ hdry] at htv1
    have hresp : resp₁ = .dryRunEntry s p₁ (calc_shares cfg p₁ (effStopPct req₁)).shares
        (calc_shares cfg p₁ (effStopPct req₁)).position_value
        (calc_stop_price p₁ (effStopPct req₁))
        (calc_shares cfg p₁ (effStopPct req₁)).risk_usd := by
      have := congrArg Prod.fst htv1
      simpa using this.symm
    have hw₁pos : w₁.positions = w.positions := by
      have := congrArg Prod.snd htv1
      have h2 := congrArg World.positions this
      simp only at h2
      rw [h2.symm] at *
      simp [hoff, pos_set_off]
    have hw₁pnl : w₁.pnl = w.pnl := by
      have := congrArg Prod.snd htv1
      have h2 := congrArg World.pnl this
      simpa using h2.symm
    have hcd₂ : cooldown_block cfg w₁.cooldown s now₂ = none :=
      cooldown_block_of_nonpos cfg w₁.cooldown s now₂ hg hsy
    have htv2 := tv_dry_entry cfg w₁ req₂ now₂ iso₂ d₂ rid₂ bf₂ s p₂ hs₂ h1 hside₂ hev₂
      hcd₂ (hst w₁.positions) hp₂ hdry
    refine ⟨hresp, ?_, ?_, ?_⟩
    · rw [htv2]
    · rw [htv2]
      simp [hoff, append_pnl_row_off, hw₁pnl]
    · rw [htv2]
      simp [hoff, pos_set_off, hw₁pos]

/-- Witness for C10 with the ledger disabled: the EXIT signal is ignored,
the first and the repeated ENTRY both produce dry-run fills, and the PnL
tab stays empty. -/
theorem C10_ledger_disabled_witness :
    pos_get cfgOff.sheetsOn w0.positions (normSymbol req1) = none ∧
    (tv cfgOff w0 reqExit 1000 "T" "D" "r" false).1 =
        .ignoredResp "No open position to exit" ∧
    (tv cfgOff ((tv cfgOff w0 req1 1000 "T1" "D" "r1" false).2) req1 1200 "T2" "D" "r2"
        false).1 =
      .dryRunEntry "ABC" 10 (calc_shares cfgOff 10 (effStopPct req1)).shares
        (calc_shares cfgOff 10 (effStopPct req1)).position_value
        (calc_stop_price 10 (effStopPct req1))
        (calc_shares cfgOff 10 (effStopPct req1)).risk_usd ∧
    ((tv cfgOff ((tv cfgOff w0 req1 1000 "T1" "D" "r1" false).2) req1 1200 "T2" "D" "r2"
        false).2).pnl = w0.pnl := by
  have hA := C10_ledger_disabled.1 cfgOff w0 req1 1000 "T" "D" "r" false (by decide)
  have hB := C10_ledger_disabled.2.1 cfgOff w0 reqExit 1000 "T" "D" "r" false "ABC"
    (by decide) (by decide) (by decide) (by decide) (by decide) (by decide)
  have hD := C10_ledger_disabled.2.2.2 cfgOff w0 req1 req1 1000 1200 "T1" "T2" "D" "D"
    "r1" "r2" false false "ABC" 10 10
    ((tv cfgOff w0 req1 1000 "T1" "D" "r1" false).1)
    ((tv cfgOff w0 req1 1000 "T1" "D" "r1" false).2)
    (by decide) (by decide) (by decide) (by decide) (by decide) (by decide) (by decide)
    (by decide) (by decide) (by decide) (by decide) (by decide) (by decide) rfl
  exact ⟨hA.1, hB, hD.2.1, hD.2.2.1⟩

end QuestradeBot
